import Mathlib

/-!
Workspace reachability engine (`kinematics_reachability.cpp`).

A shallow embedding of `KinematicsReachability` and a verification of its
sampling, cache-bridge, IK-orchestration and compaction behaviour.

Modelling conventions.

* A C++ `double` is an exact rational (`ℚ`): rounding, infinities and NaN are
  outside the model.  A division whose divisor is zero has no finite value, and
  the only place where the source divides by caller data (`getNumPoints`) treats
  it explicitly.
* `unsigned int` is a natural number reduced modulo `2 ^ 32`.
* `std::vector` is `List`; ROS messages are structures whose default values are
  the defaults of the generated message classes.
* A function whose C++ execution has no defined result (a conversion out of
  range, a dereference of an empty `boost::shared_ptr`, a loop that never
  exits) returns `none`.
* The solver, the kinematic model and the spatial cache are collaborators that
  live outside this file's source; they are parameters (`External`), and every
  call made to them is appended to a call log so that "is (not) invoked" can be
  stated.
* Publishing markers and trajectories (`visualize`, `animateWorkspace`,
  `visualizeWorkspaceSamples`) only reads its argument and writes to a ROS
  topic; it leaves the modelled state untouched and is elided, the `visualize`
  flag being kept as a parameter.
-/

namespace kinematics_reachability

/-! ## Messages -/

/-- Message `geometry_msgs/Point`. -/
structure Point where
  x : ℚ := 0
  y : ℚ := 0
  z : ℚ := 0
deriving DecidableEq

/-- Message `geometry_msgs/Quaternion`. -/
structure Quaternion where
  x : ℚ := 0
  y : ℚ := 0
  z : ℚ := 0
  w : ℚ := 0
deriving DecidableEq

/-- Message `geometry_msgs/Pose`. -/
structure Pose where
  position : Point := {}
  orientation : Quaternion := {}
deriving DecidableEq

/-- Message `std_msgs/Header`. -/
structure Header where
  seq : Nat := 0
  stamp : Nat := 0
  frame_id : String := ""
deriving DecidableEq

/-- Message `geometry_msgs/PoseStamped`. -/
structure PoseStamped where
  header : Header := {}
  pose : Pose := {}
deriving DecidableEq

/-- Message `sensor_msgs/JointState` (the fields the engine touches). -/
structure JointState where
  name : List String := []
  position : List ℚ := []
deriving DecidableEq

/-- Message `moveit_msgs/RobotState`. -/
structure RobotState where
  joint_state : JointState := {}
deriving DecidableEq

/-- Message `moveit_msgs/MoveItErrorCodes`: a single `int32 val`, zero in a freshly
constructed message. -/
structure MoveItErrorCodes where
  val : Int := 0
deriving DecidableEq

/-- Modelled from the spec: the constant `SUCCESS` of `moveit_msgs/MoveItErrorCodes`
(the message definition is not part of the source file); value as in the message
definition. -/
def MoveItErrorCodes.SUCCESS : Int := 1

/-- Modelled from the spec: the constant `PLANNING_FAILED` of
`moveit_msgs/MoveItErrorCodes`; value as in the message definition. -/
def MoveItErrorCodes.PLANNING_FAILED : Int := -1

/-- Modelled from the spec: the constant `NO_IK_SOLUTION` of
`moveit_msgs/MoveItErrorCodes`; value as in the message definition. -/
def MoveItErrorCodes.NO_IK_SOLUTION : Int := -31

/-- Message `kinematics_reachability/WorkspacePoint`. -/
structure WorkspacePoint where
  pose : Pose := {}
  robot_state : RobotState := {}
  solution_code : MoveItErrorCodes := {}
deriving DecidableEq

/-- Message `moveit_msgs/WorkspaceParameters` (the two corners). -/
structure WorkspaceParameters where
  min_corner : Point := {}
  max_corner : Point := {}
deriving DecidableEq

/-- Message `kinematics_reachability/WorkspacePoints`, the workspace report. -/
structure WorkspacePoints where
  header : Header := {}
  group_name : String := ""
  parameters : WorkspaceParameters := {}
  position_resolution : ℚ := 0
  orientations : List Quaternion := []
  tool_frame_offset : Pose := {}
  ordered : Bool := false
  points : List WorkspacePoint := []
deriving DecidableEq

/-! ## Machine arithmetic and loops -/

/-- Number of values of a C++ `unsigned int`. -/
def UINT_RANGE : Nat := 2 ^ 32

/-- The C++ conversion `(unsigned int) q` of a finite `double`: the fractional part
is discarded (truncation toward zero); the result is defined only when the
truncated value is representable. -/
def toUnsignedInt (q : ℚ) : Option Nat :=
  let t : Int := if 0 ≤ q then ⌊q⌋ else ⌈q⌉
  if 0 ≤ t ∧ t < (UINT_RANGE : Int) then some t.toNat else none

/-- The expression `(unsigned int) (dim / resolution)`.  With a zero divisor the
quotient is infinite or NaN and the conversion has no defined result. -/
def quotientToUnsignedInt (dim resolution : ℚ) : Option Nat :=
  if resolution = 0 then none else toUnsignedInt (dim / resolution)

/-- The loop `for (unsigned int i = 0; i < n; ++i) body`, for a bound `n` that is itself
an `unsigned int` (so the counter cannot wrap), threading the loop state. -/
def forLoop {σ : Type} (n : Nat) (body : Nat → σ → σ) (init : σ) : σ :=
  (List.range n).foldl (fun s i => body i s) init

/-! ## Grid sampler -/

/-- Source `KinematicsReachability::getNumPoints`: the three output parameters are
returned as a triple. -/
def getNumPoints (workspace : WorkspacePoints) : Option (Nat × Nat × Nat) :=
  let position_resolution := workspace.position_resolution
  let x_dim := |workspace.parameters.min_corner.x - workspace.parameters.max_corner.x|
  let y_dim := |workspace.parameters.min_corner.y - workspace.parameters.max_corner.y|
  let z_dim := |workspace.parameters.min_corner.z - workspace.parameters.max_corner.z|
  match quotientToUnsignedInt x_dim position_resolution,
        quotientToUnsignedInt y_dim position_resolution,
        quotientToUnsignedInt z_dim position_resolution with
  | some qx, some qy, some qz =>
    some ((qx + 1) % UINT_RANGE, (qy + 1) % UINT_RANGE, (qz + 1) % UINT_RANGE)
  | _, _, _ => none

/-- The point pushed by the innermost loop of `sampleUniform`: `ws_point` is default
constructed once and only its pose is overwritten. -/
def samplePoint (workspace : WorkspacePoints) (i j k m : Nat) : WorkspacePoint :=
  { pose :=
      { position :=
          { x := workspace.parameters.min_corner.x + (i : ℚ) * workspace.position_resolution
            y := workspace.parameters.min_corner.y + (j : ℚ) * workspace.position_resolution
            z := workspace.parameters.min_corner.z + (k : ℚ) * workspace.position_resolution }
        orientation := workspace.orientations.getD m {} } }

/-- Source `KinematicsReachability::sampleUniform`: returns the boolean result and the
workspace as left by the call. -/
def sampleUniform (workspace : WorkspacePoints) : Option (Bool × WorkspacePoints) :=
  if workspace.orientations.isEmpty then
    some (false, workspace)
  else
    let workspace := { workspace with ordered := true }
    match getNumPoints workspace with
    | none => none
    | some (x_num_points, y_num_points, z_num_points) =>
      let num_rotations := workspace.orientations.length % UINT_RANGE
      let points :=
        forLoop x_num_points (fun i points =>
          forLoop y_num_points (fun j points =>
            forLoop z_num_points (fun k points =>
              forLoop num_rotations (fun m points =>
                points ++ [samplePoint workspace i j k m]) points) points) points)
          workspace.points
      some (true, { workspace with points := points })

/-! ## Rigid transforms (`tf::Transform`) -/

/-- Modelled from the spec: `tf::Vector3`, the translation part of the "rigid
transform" of the tool offset (the tf library is not part of the source file). -/
@[ext]
structure Vector3 where
  x : ℚ := 0
  y : ℚ := 0
  z : ℚ := 0
deriving DecidableEq

/-- Modelled from the spec: `tf::Matrix3x3`, the rotation part of a rigid transform,
stored as three rows. -/
@[ext]
structure Matrix3x3 where
  r0 : Vector3 := {}
  r1 : Vector3 := {}
  r2 : Vector3 := {}
deriving DecidableEq

/-- Modelled from the spec: `tf::Transform`, a rigid transform: basis and origin. -/
@[ext]
structure Transform where
  basis : Matrix3x3 := {}
  origin : Vector3 := {}
deriving DecidableEq

/-- Dot product of two vectors. -/
def Vector3.dot (a b : Vector3) : ℚ := a.x * b.x + a.y * b.y + a.z * b.z

/-- Negation of a vector (`-m_origin`). -/
def Vector3.neg (a : Vector3) : Vector3 := { x := -a.x, y := -a.y, z := -a.z }

/-- Sum of two vectors. -/
def Vector3.add (a b : Vector3) : Vector3 := { x := a.x + b.x, y := a.y + b.y, z := a.z + b.z }

/-- The identity matrix. -/
def Matrix3x3.identity : Matrix3x3 :=
  { r0 := { x := 1, y := 0, z := 0 }, r1 := { x := 0, y := 1, z := 0 }, r2 := { x := 0, y := 0, z := 1 } }

/-- Modelled from the spec: `Matrix3x3::transpose`. -/
def Matrix3x3.transpose (m : Matrix3x3) : Matrix3x3 :=
  { r0 := { x := m.r0.x, y := m.r1.x, z := m.r2.x }
    r1 := { x := m.r0.y, y := m.r1.y, z := m.r2.y }
    r2 := { x := m.r0.z, y := m.r1.z, z := m.r2.z } }

/-- Matrix times vector. -/
def Matrix3x3.mulVec (m : Matrix3x3) (v : Vector3) : Vector3 :=
  { x := m.r0.dot v, y := m.r1.dot v, z := m.r2.dot v }

/-- Matrix product. -/
def Matrix3x3.mul (a b : Matrix3x3) : Matrix3x3 :=
  let bt := b.transpose
  { r0 := { x := a.r0.dot bt.r0, y := a.r0.dot bt.r1, z := a.r0.dot bt.r2 }
    r1 := { x := a.r1.dot bt.r0, y := a.r1.dot bt.r1, z := a.r1.dot bt.r2 }
    r2 := { x := a.r2.dot bt.r0, y := a.r2.dot bt.r1, z := a.r2.dot bt.r2 } }

/-- Modelled from the spec: `Matrix3x3::setRotation`, the rotation matrix of a
quaternion (scaled by `2 / length2`, so any non-zero quaternion yields a
rotation).  For the zero quaternion the entries computed by the library are not
finite, which is outside the model of a `double` as a rational. -/
def Matrix3x3.setRotation (q : Quaternion) : Matrix3x3 :=
  let d := q.x * q.x + q.y * q.y + q.z * q.z + q.w * q.w
  let s := 2 / d
  let xs := q.x * s
  let ys := q.y * s
  let zs := q.z * s
  let wx := q.w * xs
  let wy := q.w * ys
  let wz := q.w * zs
  let xx := q.x * xs
  let xy := q.x * ys
  let xz := q.x * zs
  let yy := q.y * ys
  let yz := q.y * zs
  let zz := q.z * zs
  { r0 := { x := 1 - (yy + zz), y := xy - wz, z := xz + wy }
    r1 := { x := xy + wz, y := 1 - (xx + zz), z := yz - wx }
    r2 := { x := xz - wy, y := yz + wx, z := 1 - (xx + yy) } }

/-- Modelled from the spec: `Transform::setIdentity`. -/
def Transform.identity : Transform := { basis := Matrix3x3.identity, origin := {} }

/-- Modelled from the spec: `Transform::operator*`, composition of rigid transforms:
`(t1 * t2) (v) = t1 (t2 (v))`. -/
def Transform.mul (t1 t2 : Transform) : Transform :=
  { basis := t1.basis.mul t2.basis
    origin := (t1.basis.mulVec t2.origin).add t1.origin }

/-- Modelled from the spec: `Transform::inverse`, which transposes the basis and
rotates the negated origin. -/
def Transform.inverse (t : Transform) : Transform :=
  let inv := t.basis.transpose
  { basis := inv, origin := inv.mulVec t.origin.neg }

/-- Modelled from the spec: `tf::poseMsgToTF`. -/
def poseMsgToTF (msg : Pose) : Transform :=
  { basis := Matrix3x3.setRotation msg.orientation
    origin := { x := msg.position.x, y := msg.position.y, z := msg.position.z } }

/-- Modelled from the spec: `tf::poseTFToMsg`.  The origin is copied; the conversion of
the basis to a quaternion message takes square roots and is left as the
parameter `rotationToMsg`. -/
def poseTFToMsg (rotationToMsg : Matrix3x3 → Quaternion) (bt : Transform) : Pose :=
  { position := { x := bt.origin.x, y := bt.origin.y, z := bt.origin.z }
    orientation := rotationToMsg bt.basis }

/-! ## Requests, collaborators and engine state -/

/-- Message `kinematics_msgs/PositionIKRequest`. -/
structure PositionIKRequest where
  ik_link_name : String := ""
  pose_stamped : PoseStamped := {}
  ik_seed_state : RobotState := {}
deriving DecidableEq

/-- Request of service `kinematics_msgs/GetConstraintAwarePositionIK`. -/
structure Request where
  ik_request : PositionIKRequest := {}
  timeout : ℚ := 0
deriving DecidableEq

/-- Response of service `kinematics_msgs/GetConstraintAwarePositionIK`. -/
structure Response where
  solution : RobotState := {}
  error_code : MoveItErrorCodes := {}
deriving DecidableEq

/-- Type `kinematics_cache::KinematicsCache::Options`. -/
structure Options where
  origin : Point := {}
  workspace_size : List ℚ := [0, 0, 0]
  resolution : List ℚ := [0, 0, 0]
  max_solutions_per_grid_location : Nat := 0
deriving DecidableEq

/-- What the engine reads of a `JointModelGroup` of the kinematic model. -/
structure JointModelGroup where
  link_model_names : List String := []
  joint_model_names : List String := []
deriving DecidableEq

/-- One call made by the engine to a collaborator, as recorded in the call log. -/
inductive Call where
  | getIK (request : Request)
  | getMinMaxSquaredDistance
  | getSolution (pose : Pose) (solution_index : Nat)
  | addToCache (pose : Pose) (joint_values : List ℚ) (overwrite : Bool)
  | writeToFile (filename : String)
  | readFromFile (filename : String)
  | generateCacheMap (timeout : ℚ)
  | newKinematicsCache (group_name : String)
deriving DecidableEq

/-- The collaborators of the engine: `W` is the state of the solver side (kinematic
model, random generator, planning scene), `K` the state of a
`kinematics_cache::KinematicsCache` object.  Every field is an arbitrary
function, so a statement quantified over `External` covers every behaviour of
the solver and of the cache. -/
structure External (W K : Type) where
  /-- Lookup `KinematicModel::getJointModelGroup`; `none` is the null pointer. -/
  getJointModelGroup : String → Option JointModelGroup
  /-- Call `JointStateGroup::setToRandomValues` followed by `getGroupStateValues`. -/
  setToRandomValues : W → JointModelGroup → W × List ℚ
  /-- Conversion of a rotation matrix to a quaternion message (`getRotation`). -/
  rotationToMsg : Matrix3x3 → Quaternion
  /-- Call `kinematics_solver_.getIK (request, response)`. -/
  getIK : W → Request → W × Response
  /-- Whether `generateKinematicsSolversMap ()` has an entry for the group. -/
  hasKinematicsSolver : W → String → Bool
  /-- A fresh `KinematicsCache`, reset and set up for the group. -/
  newKinematicsCache : W → String → Options → K
  getGroupName : K → String
  readFromFile : K → String → Bool × K
  generateCacheMap : K → ℚ → Bool × K
  writeToFile : K → String → Bool
  getMinMaxSquaredDistance : K → ℚ × ℚ
  /-- Call `getSolution (pose, solution_index, solution)`; the vector `solution` is
  passed by reference, so its old value comes in and its new value comes out. -/
  getSolution : K → Pose → Nat → List ℚ → Bool × List ℚ
  addToCache : K → Pose → List ℚ → Bool → Bool × K

/-- The members of class `KinematicsReachability` that the modelled functions read or
write, together with the solver-side state `world` and the call log `calls`. -/
structure KinematicsReachability (W K : Type) where
  tool_offset_ : Transform := Transform.identity
  tool_offset_inverse_ : Transform := Transform.identity
  first_time_ : Bool := true
  use_cache_ : Bool := false
  kinematics_cache_ : Option K := none
  default_cache_timeout_ : ℚ := 60
  default_cache_options_ : Options := {}
  cache_filename_ : String := ""
  world : W
  calls : List Call := []

/-! ## Tool frame adapter -/

/-- Source `KinematicsReachability::setToolFrameOffset`. -/
def setToolFrameOffset {W K : Type} (self : KinematicsReachability W K) (pose : Pose) :
    KinematicsReachability W K :=
  let tool_offset_ := poseMsgToTF pose
  { self with tool_offset_ := tool_offset_, tool_offset_inverse_ := tool_offset_.inverse }

/-! ## Cache bridge -/

/-- Source `KinematicsReachability::updateFromCache`: returns the boolean result, the
request as left by the call, and the engine.  The cache handle is dereferenced
first, so an empty handle has no defined result. -/
def updateFromCache {W K : Type} (ext : External W K) (self : KinematicsReachability W K)
    (request : Request) : Option (Bool × Request × KinematicsReachability W K) :=
  match self.kinematics_cache_ with
  | none => none
  | some cache =>
    let pose := request.ik_request.pose_stamped.pose
    let distance_squared :=
      pose.position.x * pose.position.x + pose.position.y * pose.position.y
        + pose.position.z * pose.position.z
    let distances := ext.getMinMaxSquaredDistance cache
    let self := { self with calls := self.calls ++ [Call.getMinMaxSquaredDistance] }
    if distance_squared ≥ distances.2 then
      some (false, request, self)
    else
      let found := ext.getSolution cache request.ik_request.pose_stamped.pose 0
        request.ik_request.ik_seed_state.joint_state.position
      let request :=
        { request with
          ik_request :=
            { request.ik_request with
              ik_seed_state :=
                { request.ik_request.ik_seed_state with
                  joint_state :=
                    { request.ik_request.ik_seed_state.joint_state with
                      position := found.2 } } } }
      some (true, request,
        { self with
          calls := self.calls ++ [Call.getSolution request.ik_request.pose_stamped.pose 0] })

/-- Source `KinematicsReachability::generateCache`.  A dereference of the cache handle
after the reset block is written as a match on the handle, as everywhere else. -/
def generateCache {W K : Type} (ext : External W K) (self : KinematicsReachability W K)
    (group_name : String) (timeout : ℚ) (options : Options) (cache_filename : String) :
    Option (Bool × KinematicsReachability W K) :=
  let stale : Bool :=
    match self.kinematics_cache_ with
    | none => true
    | some cache => ext.getGroupName cache != group_name
  let afterReset : Option (KinematicsReachability W K) :=
    if stale then
      if ext.hasKinematicsSolver self.world group_name then
        some { self with
               kinematics_cache_ := some (ext.newKinematicsCache self.world group_name options)
               calls := self.calls ++ [Call.newKinematicsCache group_name] }
      else none
    else some self
  match afterReset with
  | none => some (false, self)
  | some self =>
    match self.kinematics_cache_ with
    | none => none
    | some cache =>
      let read := ext.readFromFile cache cache_filename
      let self :=
        { self with
          kinematics_cache_ := some read.2
          calls := self.calls ++ [Call.readFromFile cache_filename] }
      if !read.1 then
        let generated := ext.generateCacheMap read.2 timeout
        let self :=
          { self with
            kinematics_cache_ := some generated.2
            calls := self.calls ++ [Call.generateCacheMap timeout] }
        if !generated.1 then
          some (false, self)
        else
          let written := ext.writeToFile generated.2 cache_filename
          let self := { self with calls := self.calls ++ [Call.writeToFile cache_filename] }
          if !written then some (false, self) else some (true, self)
      else some (true, self)

/-! ## IK query orchestrator -/

/-- Source `KinematicsReachability::getDefaultIKRequest`.  A null joint model group is
dereferenced and `back ()` of an empty vector is read, neither with a defined
result. -/
def getDefaultIKRequest {W K : Type} (ext : External W K) (self : KinematicsReachability W K)
    (group_name : String) (req : Request) : Option (Request × KinematicsReachability W K) :=
  match ext.getJointModelGroup group_name with
  | none => none
  | some joint_model_group =>
    let random := ext.setToRandomValues self.world joint_model_group
    match joint_model_group.link_model_names.getLast? with
    | none => none
    | some link_name =>
      some
        ({ req with
           timeout := 5
           ik_request :=
             { req.ik_request with
               ik_link_name := link_name
               ik_seed_state :=
                 { req.ik_request.ik_seed_state with
                   joint_state :=
                     { name := joint_model_group.joint_model_names
                       position := random.2 } } } },
         { self with world := random.1 })

/-- The pose `tmp_pose` of `findIK`: the caller pose composed with the inverse of the
tool offset (`tmp_pose = tmp_pose * tool_offset_inverse_`). -/
def toolCorrectedPose {W K : Type} (self : KinematicsReachability W K) (pose : Pose) :
    Transform :=
  (poseMsgToTF pose).mul self.tool_offset_inverse_

/-- The last three statements of `findIK`: the solver call and the two copies out of
its response. -/
def findIKSolve {W K : Type} (ext : External W K) (self : KinematicsReachability W K)
    (request : Request) : MoveItErrorCodes × RobotState × KinematicsReachability W K :=
  let answer := ext.getIK self.world request
  (answer.2.error_code, answer.2.solution,
    { self with world := answer.1, calls := self.calls ++ [Call.getIK request] })

/-- The request `findIK` has built when it reaches `if (use_cache_)`: the default
request of `getDefaultIKRequest` with the tool-corrected target pose stored in
it. -/
def findIKRequest {W K : Type} (ext : External W K) (self : KinematicsReachability W K)
    (group_name : String) (pose_stamped : PoseStamped) :
    Option (Request × KinematicsReachability W K) :=
  match getDefaultIKRequest ext self group_name {} with
  | none => none
  | some (request, self) =>
    let tmp_pose := toolCorrectedPose self pose_stamped.pose
    let transformed_pose : PoseStamped :=
      { pose_stamped with pose := poseTFToMsg ext.rotationToMsg tmp_pose }
    some ({ request with
            ik_request := { request.ik_request with pose_stamped := transformed_pose } },
          self)

/-- Source `KinematicsReachability::findIK`: the reference parameters `error_code` and
`robot_state` come in with the caller's values and are returned as left by the
call. -/
def findIK {W K : Type} (ext : External W K) (self : KinematicsReachability W K)
    (group_name : String) (pose_stamped : PoseStamped) (error_code : MoveItErrorCodes)
    (robot_state : RobotState) :
    Option (MoveItErrorCodes × RobotState × KinematicsReachability W K) :=
  match findIKRequest ext self group_name pose_stamped with
  | none => none
  | some (request, self) =>
    if self.use_cache_ then
      match updateFromCache ext self request with
      | none => none
      | some (false, _, self) =>
        some ({ error_code with val := MoveItErrorCodes.PLANNING_FAILED }, robot_state, self)
      | some (true, request, self) => some (findIKSolve ext self request)
    else some (findIKSolve ext self request)

set_option linter.unusedVariables false in
/-- The body of the loop of `findIKSolutions` for index `i`. -/
def findIKSolutionsBody {W K : Type} (ext : External W K) (visualize_workspace : Bool)
    (i : Nat) (workspace : WorkspacePoints) (self : KinematicsReachability W K) :
    Option (WorkspacePoints × KinematicsReachability W K) :=
  match workspace.points[i]? with
  | none => none
  | some point =>
    let ik_pose : PoseStamped := { pose := point.pose, header := workspace.header }
    match findIK ext self workspace.group_name ik_pose {} {} with
    | none => none
    | some (error_code, solution, self) =>
      let point := { point with solution_code := error_code }
      if error_code.val = MoveItErrorCodes.SUCCESS then
        let point := { point with robot_state := solution }
        let workspace := { workspace with points := workspace.points.set i point }
        match self.kinematics_cache_ with
        | none => none
        | some cache =>
          let added := ext.addToCache cache point.pose solution.joint_state.position true
          some (workspace,
            { self with
              kinematics_cache_ := some added.2
              calls :=
                self.calls ++ [Call.addToCache point.pose solution.joint_state.position true] })
      else
        some ({ workspace with points := workspace.points.set i point }, self)

/-- The loop `for (unsigned int i = 0; i < workspace.points.size (); ++i)` of
`findIKSolutions`.  The body never changes the number of points, so the loop is
driven by `remaining = workspace.points.size () - i`.  The counter is 32 bits
wide: when `++i` wraps to zero with points still remaining, the loop starts over
and never exits. -/
def findIKSolutionsLoop {W K : Type} (ext : External W K) (visualize_workspace : Bool) :
    Nat → Nat → WorkspacePoints → KinematicsReachability W K →
    Option (WorkspacePoints × KinematicsReachability W K)
  | 0, _, workspace, self => some (workspace, self)
  | remaining + 1, i, workspace, self =>
    match findIKSolutionsBody ext visualize_workspace i workspace self with
    | none => none
    | some (workspace, self) =>
      if i + 1 < UINT_RANGE then
        findIKSolutionsLoop ext visualize_workspace remaining (i + 1) workspace self
      else none

/-- Source `KinematicsReachability::findIKSolutions`.  After the loop the cache is
written to `cache_filename_`; the boolean result of `writeToFile` only selects a
warning, so the call is recorded and its result dropped. -/
def findIKSolutions {W K : Type} (ext : External W K) (workspace : WorkspacePoints)
    (visualize_workspace : Bool) (self : KinematicsReachability W K) :
    Option (WorkspacePoints × KinematicsReachability W K) :=
  match findIKSolutionsLoop ext visualize_workspace workspace.points.length 0 workspace self with
  | none => none
  | some (workspace, self) =>
    match self.kinematics_cache_ with
    | none => none
    | some _ =>
      some (workspace, { self with calls := self.calls ++ [Call.writeToFile self.cache_filename_] })

/-! ## Public workspace functions -/

/-- Source `KinematicsReachability::computeWorkspace`: returns the boolean result, the
workspace as left by the call, and the engine. -/
def computeWorkspace {W K : Type} (ext : External W K) (self : KinematicsReachability W K)
    (workspace : WorkspacePoints) (visualize : Bool) :
    Option (Bool × WorkspacePoints × KinematicsReachability W K) :=
  let afterCache : Option (KinematicsReachability W K) :=
    if self.first_time_ then
      match generateCache ext self workspace.group_name self.default_cache_timeout_
          self.default_cache_options_ self.cache_filename_ with
      | none => none
      | some (generated, self) =>
        some { self with
               use_cache_ := if generated then true else self.use_cache_
               first_time_ := false }
    else some self
  match afterCache with
  | none => none
  | some self =>
    let self := setToolFrameOffset self workspace.tool_frame_offset
    match sampleUniform workspace with
    | none => none
    | some (false, workspace) => some (false, workspace, self)
    | some (true, workspace) =>
      match findIKSolutions ext workspace visualize self with
      | none => none
      | some (workspace, self) => some (true, workspace, self)

/-! ## Compaction -/

/-- The loop of `removeUnreachableWorkspace`: `it` is the position of the iterator,
`remaining` its distance to `end ()`, which drops by one whether the element is
erased or stepped over. -/
def removeUnreachableLoop :
    Nat → Nat → List WorkspacePoint → Nat → List WorkspacePoint × Nat
  | 0, _, points, remove_counter => (points, remove_counter)
  | remaining + 1, it, points, remove_counter =>
    match points[it]? with
    | none => (points, remove_counter)
    | some point =>
      if point.solution_code.val ≠ MoveItErrorCodes.SUCCESS then
        removeUnreachableLoop remaining it (points.eraseIdx it)
          ((remove_counter + 1) % UINT_RANGE)
      else removeUnreachableLoop remaining (it + 1) points remove_counter

/-- Source `KinematicsReachability::removeUnreachableWorkspace`. -/
def removeUnreachableWorkspace (workspace : WorkspacePoints) : WorkspacePoints :=
  { workspace with
    points := (removeUnreachableLoop workspace.points.length 0 workspace.points 0).1 }

/-! ## Position index and display trajectory -/

/-- Number of values of a C++ `size_t` on the 64-bit platforms the engine runs on. -/
def SIZE_RANGE : Nat := 2 ^ 64

/-- Source `KinematicsReachability::getPositionIndex`: the two output vectors come in
with the caller's contents and are returned as left by the call.  The product
`x_num_points*y_num_points*z_num_points` is computed in `unsigned int`, then
multiplied in `size_t` by `orientations.size ()` and stored in an `unsigned int`.
The element access `workspace.points[i]` is unchecked, so an index at or beyond
the number of points has no defined result. -/
def getPositionIndex (workspace : WorkspacePoints)
    (reachable_workspace unreachable_workspace : List Nat) : Option (List Nat × List Nat) :=
  match getNumPoints workspace with
  | none => none
  | some (x_num_points, y_num_points, z_num_points) =>
    let num_workspace_points :=
      ((((x_num_points * y_num_points) % UINT_RANGE * z_num_points) % UINT_RANGE
        * workspace.orientations.length) % SIZE_RANGE) % UINT_RANGE
    forLoop num_workspace_points (fun i state =>
      match state, workspace.points[i]? with
      | some (reachable_workspace, unreachable_workspace), some point =>
        if point.solution_code.val = MoveItErrorCodes.SUCCESS then
          some (reachable_workspace ++ [i], unreachable_workspace)
        else
          some (reachable_workspace, unreachable_workspace ++ [i])
      | _, _ => none)
      (some (reachable_workspace, unreachable_workspace))

/-- Message `trajectory_msgs/JointTrajectoryPoint` (the fields the engine writes). -/
structure JointTrajectoryPoint where
  positions : List ℚ := []
  time_from_start : ℚ := 0
deriving DecidableEq

/-- Message `moveit_msgs/DisplayTrajectory`, reduced to the joint trajectory it
carries. -/
structure DisplayTrajectory where
  joint_names : List String := []
  points : List JointTrajectoryPoint := []
deriving DecidableEq

/-- Source `KinematicsReachability::getDisplayTrajectory` for a whole workspace:
returns the boolean result and the trajectory as left by the call. -/
def getDisplayTrajectory (workspace : WorkspacePoints)
    (display_trajectory : DisplayTrajectory) : Option (Bool × DisplayTrajectory) :=
  if workspace.points.isEmpty then
    some (false, display_trajectory)
  else
    match getPositionIndex workspace [] [] with
    | none => none
    | some (reachable_workspace, _) =>
      let after :=
        forLoop reachable_workspace.length (fun i state =>
          match state, reachable_workspace[i]? with
          | some (first_time, display_trajectory), some index =>
            match workspace.points[index]? with
            | none => none
            | some point =>
              let joint_names :=
                if first_time then point.robot_state.joint_state.name
                else display_trajectory.joint_names
              some (false,
                { joint_names := joint_names
                  points := display_trajectory.points ++
                    [{ positions := point.robot_state.joint_state.position
                       time_from_start := 0 }] })
          | _, _ => none)
          (some (true, display_trajectory))
      match after with
      | none => none
      | some (_, display_trajectory) => some (true, display_trajectory)

/-! ## Specification-side definitions and concrete inputs -/

/-- The grid enumerated by the four nested loops of `sampleUniform`. -/
def gridPoints (workspace : WorkspacePoints) (nx ny nz nr : Nat) : List WorkspacePoint :=
  (List.range nx).flatMap fun i =>
    (List.range ny).flatMap fun j =>
      (List.range nz).flatMap fun k =>
        (List.range nr).flatMap fun m => [samplePoint workspace i j k m]

/-- The number of points the specification promises for a workspace:
`(⌊dx/r⌋+1)·(⌊dy/r⌋+1)·(⌊dz/r⌋+1)·|orientations|`. -/
def expectedNumPoints (workspace : WorkspacePoints) : Nat :=
  (⌊|workspace.parameters.min_corner.x - workspace.parameters.max_corner.x|
      / workspace.position_resolution⌋₊ + 1)
    * (⌊|workspace.parameters.min_corner.y - workspace.parameters.max_corner.y|
      / workspace.position_resolution⌋₊ + 1)
    * (⌊|workspace.parameters.min_corner.z - workspace.parameters.max_corner.z|
      / workspace.position_resolution⌋₊ + 1)
    * workspace.orientations.length

/-- The scenario of the specification: corners `(0,0,0)` and `(1,0,0)`, resolution
`0.5`, one orientation. -/
def scenarioWorkspace : WorkspacePoints :=
  { parameters := { min_corner := {}, max_corner := { x := 1 } }
    position_resolution := 1 / 2
    orientations := [{ w := 1 }] }

/-- The scenario workspace handed over with one point already in its list. -/
def scenarioWithExistingPoint : WorkspacePoints :=
  { scenarioWorkspace with points := [{}] }

/-- A workspace whose x extent is `2 ^ 32 - 1` resolution steps. -/
def wideWorkspace : WorkspacePoints :=
  { parameters := { min_corner := {}, max_corner := { x := 4294967295 } }
    position_resolution := 1
    orientations := [{ w := 1 }] }

/-- A degenerate box sampled with `2 ^ 32` orientations. -/
def manyOrientationsWorkspace : WorkspacePoints :=
  { position_resolution := 1
    orientations := List.replicate UINT_RANGE { w := 1 } }

/-- A solver-side collaborator for concrete runs: one known group `arm`, a solver
that answers every request with the given code and the joint values `[1]`, and
a cache whose envelope is `max² = 4` and whose lookups return `[7]`. -/
def scenarioExternal (code : Int) : External Unit Unit :=
  { getJointModelGroup := fun name =>
      if name = "arm" then some { link_model_names := ["tip"], joint_model_names := ["j"] }
      else none
    setToRandomValues := fun w _ => (w, [0])
    rotationToMsg := fun _ => { w := 1 }
    getIK := fun w _ =>
      (w, { solution := { joint_state := { name := ["j"], position := [1] } }
            error_code := { val := code } })
    hasKinematicsSolver := fun _ name => name = "arm"
    newKinematicsCache := fun _ _ _ => ()
    getGroupName := fun _ => "arm"
    readFromFile := fun k _ => (true, k)
    generateCacheMap := fun k _ => (true, k)
    writeToFile := fun _ _ => true
    getMinMaxSquaredDistance := fun _ => (0, 4)
    getSolution := fun _ _ _ _ => (true, [7])
    addToCache := fun k _ _ _ => (true, k) }

/-- An engine with an active cache and the identity tool offset. -/
def cachedEngine : KinematicsReachability Unit Unit :=
  { world := (), use_cache_ := true, first_time_ := false, kinematics_cache_ := some () }

/-- An engine that holds a cache object but does not use it for seeding. -/
def uncachedEngine : KinematicsReachability Unit Unit :=
  { world := (), use_cache_ := false, first_time_ := false, kinematics_cache_ := some () }

/-- A request whose target lies at `(x, 0, 0)`. -/
def requestAt (x : ℚ) : Request :=
  { ik_request := { pose_stamped := { pose := { position := { x := x } } } } }

/-- The order-preserving filter the specification describes: the points whose
classification is `SUCCESS`. -/
def reachablePoints (points : List WorkspacePoint) : List WorkspacePoint :=
  points.filter fun point => decide (point.solution_code.val = MoveItErrorCodes.SUCCESS)

/-- A tool offset: translation `(1, 2, 3)` and a rotation about the x axis with the
unit quaternion `(3/5, 0, 0, 4/5)`. -/
def scenarioToolOffset : Pose :=
  { position := { x := 1, y := 2, z := 3 }, orientation := { x := 3 / 5, w := 4 / 5 } }

/-- A caller pose: position `(1, 0, 0)`, rotation about the z axis with the unit
quaternion `(0, 0, 5/13, 12/13)`. -/
def scenarioCallerPose : Pose :=
  { position := { x := 1 }, orientation := { z := 5 / 13, w := 12 / 13 } }

/-- A workspace whose orientation list is empty; the corners, the resolution and
the two existing points are arbitrary. -/
def noOrientationWorkspace : WorkspacePoints :=
  { group_name := "arm"
    parameters := { min_corner := { x := -1 }, max_corner := { x := 1, y := 2, z := 3 } }
    position_resolution := 1 / 10
    orientations := []
    tool_frame_offset := { orientation := { w := 1 } }
    points := [{ solution_code := { val := 1 } }, {}] }

/-- An engine as left by `initialize ()`: no cache yet, first computation pending. -/
def freshEngine : KinematicsReachability Unit Unit :=
  { world := (), cache_filename_ := "cache.bin" }

/-- A degenerate box sampled with the negative resolution `-1` and one orientation. -/
def negativeResolutionWorkspace : WorkspacePoints :=
  { position_resolution := -1, orientations := [{ w := 1 }] }

/-- A box of extent `(1, 0, 0)` sampled with resolution `-2` and two orientations,
with one point already in the list. -/
def negativeResolutionBox : WorkspacePoints :=
  { parameters := { max_corner := { x := 1 } }
    position_resolution := -2
    orientations := [{ w := 1 }, { x := 1 }]
    points := [{}] }

/-- A classification that `findIK` can produce: `PLANNING_FAILED`, or the error
code of some response of the solver. -/
def Classified {W K : Type} (ext : External W K) (code : MoveItErrorCodes) : Prop :=
  code.val = MoveItErrorCodes.PLANNING_FAILED ∨
    ∃ (w : W) (request : Request), code = (ext.getIK w request).2.error_code

/-- The point stored at index `i` by one iteration of `findIKSolutions`. -/
def solvedPoint (point : WorkspacePoint) (code : MoveItErrorCodes) (solution : RobotState) :
    WorkspacePoint :=
  { pose := point.pose
    robot_state := if code.val = MoveItErrorCodes.SUCCESS then solution else point.robot_state
    solution_code := code }

/-- The scenario workspace for the group `arm`, with the identity tool offset. -/
def armWorkspace : WorkspacePoints :=
  { scenarioWorkspace with
    group_name := "arm"
    tool_frame_offset := { orientation := { w := 1 } } }

/-- The scenario workspace for `arm` after sampling: three unclassified points. -/
def sampledArmWorkspace : WorkspacePoints :=
  { armWorkspace with
    ordered := true
    points :=
      [{ pose := { position := { x := 0 }, orientation := { w := 1 } } },
       { pose := { position := { x := 1 / 2 }, orientation := { w := 1 } } },
       { pose := { position := { x := 1 }, orientation := { w := 1 } } }] }

/-- The workspace `armWorkspace` after a solve pass in which every point received
the classification `code` and the configuration `joints`/`values`. -/
def solvedArmWorkspace (code : Int) (joints : List String) (values : List ℚ) :
    WorkspacePoints :=
  { armWorkspace with
    ordered := true
    points :=
      [{ pose := { position := { x := 0 }, orientation := { w := 1 } }
         robot_state := { joint_state := { name := joints, position := values } }
         solution_code := { val := code } },
       { pose := { position := { x := 1 / 2 }, orientation := { w := 1 } }
         robot_state := { joint_state := { name := joints, position := values } }
         solution_code := { val := code } },
       { pose := { position := { x := 1 }, orientation := { w := 1 } }
         robot_state := { joint_state := { name := joints, position := values } }
         solution_code := { val := code } }] }

/-- A box of extent `(1, 0, 0)` sampled with resolution `0.4`: the extent is two and a
half resolution steps. -/
def fractionalWorkspace : WorkspacePoints :=
  { parameters := { min_corner := {}, max_corner := { x := 1 } }
    position_resolution := 2 / 5
    orientations := [{ w := 1 }] }

/-- A caller target at `(x, 0, 0)` with the identity orientation. -/
def targetAt (x : ℚ) : PoseStamped :=
  { pose := { position := { x := x }, orientation := { w := 1 } } }

/-- The request `findIK` builds for the group `arm` and a target at `(x, 0, 0)` when
the tool offset is the identity. -/
def armRequestAt (x : ℚ) : Request :=
  { ik_request :=
      { ik_link_name := "tip"
        pose_stamped := { pose := { position := { x := x }, orientation := { w := 1 } } }
        ik_seed_state := { joint_state := { name := ["j"], position := [0] } } }
    timeout := 5 }

/-- The sampled scenario workspace after a solve pass in which the middle point was
classified `NO_IK_SOLUTION` and the two others `SUCCESS`. -/
def mixedArmWorkspace : WorkspacePoints :=
  { armWorkspace with
    ordered := true
    points :=
      [{ pose := { position := { x := 0 }, orientation := { w := 1 } }
         robot_state := { joint_state := { name := ["j"], position := [1] } }
         solution_code := { val := MoveItErrorCodes.SUCCESS } },
       { pose := { position := { x := 1 / 2 }, orientation := { w := 1 } }
         solution_code := { val := MoveItErrorCodes.NO_IK_SOLUTION } },
       { pose := { position := { x := 1 }, orientation := { w := 1 } }
         robot_state := { joint_state := { name := ["j"], position := [1] } }
         solution_code := { val := MoveItErrorCodes.SUCCESS } }] }

/-- The workspace `mixedArmWorkspace` with a fourth, unclassified point, as left
by sampling into a list that already held points. -/
def oversizedArmWorkspace : WorkspacePoints :=
  { mixedArmWorkspace with points := mixedArmWorkspace.points ++ [{}] }

/-- The collaborators of the scenario when the kinematics solver map has no entry
for any group, so that `generateCache` never creates a cache object. -/
def noSolverExternal (code : Int) : External Unit Unit :=
  { scenarioExternal code with hasKinematicsSolver := fun _ _ => false }

/-- The collaborators of the scenario when the cache file cannot be read and the
cache map cannot be generated. -/
def failingBuildExternal (code : Int) : External Unit Unit :=
  { scenarioExternal code with
    readFromFile := fun k _ => (false, k)
    generateCacheMap := fun k _ => (false, k) }

/-- The collaborators of the scenario when the cache file cannot be read and the
generated cache map cannot be written. -/
def failingWriteExternal (code : Int) : External Unit Unit :=
  { scenarioExternal code with
    readFromFile := fun k _ => (false, k)
    writeToFile := fun _ _ => false }

/-- Collaborators with two known groups, `arm` and `leg`; the state of a cache object
is the name of the group it was built for. -/
def twoGroupExternal : External Unit String :=
  { getJointModelGroup := fun name =>
      if name = "arm" ∨ name = "leg" then
        some { link_model_names := [name ++ "_tip"], joint_model_names := [name ++ "_joint"] }
      else none
    setToRandomValues := fun w _ => (w, [0])
    rotationToMsg := fun _ => { w := 1 }
    getIK := fun w request =>
      (w, { solution :=
              { joint_state := { name := request.ik_request.ik_seed_state.joint_state.name
                                 position := [1] } }
            error_code := { val := MoveItErrorCodes.SUCCESS } })
    hasKinematicsSolver := fun _ name => name = "arm" ∨ name = "leg"
    newKinematicsCache := fun _ name _ => name
    getGroupName := fun k => k
    readFromFile := fun k _ => (true, k)
    generateCacheMap := fun k _ => (true, k)
    writeToFile := fun _ _ => true
    getMinMaxSquaredDistance := fun _ => (0, 4)
    getSolution := fun _ _ _ _ => (true, [7])
    addToCache := fun k _ _ _ => (true, k) }

/-- A fresh engine for `twoGroupExternal`. -/
def freshGroupEngine : KinematicsReachability Unit String :=
  { world := (), cache_filename_ := "cache.bin" }

/-- A degenerate box at the origin for the given group: one position, one
orientation, identity tool offset. -/
def pointWorkspace (group_name : String) : WorkspacePoints :=
  { group_name := group_name
    position_resolution := 1 / 2
    orientations := [{ w := 1 }]
    tool_frame_offset := { orientation := { w := 1 } } }

/-- The request of the scenario for a group: target at the origin, seeded from the
cache with `[7]`. -/
def seededGroupRequest (group_name : String) : Request :=
  { ik_request :=
      { ik_link_name := group_name ++ "_tip"
        pose_stamped := { pose := { orientation := { w := 1 } } }
        ik_seed_state :=
          { joint_state := { name := [group_name ++ "_joint"], position := [7] } } }
    timeout := 5 }

/-- A first `computeWorkspace` call for `arm` followed, on the engine it leaves, by a
second call for `leg`. -/
def armThenLeg :
    Option (Bool × WorkspacePoints × KinematicsReachability Unit String) :=
  (computeWorkspace twoGroupExternal freshGroupEngine (pointWorkspace "arm") false).bind
    fun first => computeWorkspace twoGroupExternal first.2.2 (pointWorkspace "leg") false

/-- A degenerate box at the origin for the group `arm` whose tool frame is offset by
`(1, 0, 0)` from the native end-effector frame, without rotation. -/
def offsetToolWorkspace : WorkspacePoints :=
  { group_name := "arm"
    position_resolution := 1 / 2
    orientations := [{ w := 1 }]
    tool_frame_offset := { position := { x := 1 }, orientation := { w := 1 } } }

/-- The request the solver receives in the offset-tool scenario: the target is the
tool-corrected pose at `(-1, 0, 0)`. -/
def offsetToolRequest : Request :=
  { ik_request :=
      { ik_link_name := "tip"
        pose_stamped := { pose := { position := { x := -1 }, orientation := { w := 1 } } }
        ik_seed_state := { joint_state := { name := ["j"], position := [7] } } }
    timeout := 5 }

/-! ## Grid sampler: lemmas -/

/-- A counted loop whose body appends `f i` to a list appends the concatenation of
the `f i` in index order. -/
theorem forLoop_append {α : Type} (n : Nat) (f : Nat → List α) (init : List α) :
    forLoop n (fun i acc => acc ++ f i) init = init ++ (List.range n).flatMap f := by
  unfold forLoop
  generalize List.range n = l
  induction l generalizing init with
  | nil => simp
  | cons a l ih => simp [ih, List.flatMap_cons, List.append_assoc]

/-- Length of a concatenation of `n` blocks of equal length. -/
theorem length_flatMap_range {α : Type} (n len : Nat) (f : Nat → List α)
    (hf : ∀ i, (f i).length = len) : ((List.range n).flatMap f).length = n * len := by
  induction n with
  | zero => simp
  | succ n ih => simp [List.range_succ, List.flatMap_append, ih, hf, Nat.succ_mul]

/-- Element `t` of block `i` sits at flat index `i * len + t`. -/
theorem getElem?_flatMap_range {α : Type} (n len : Nat) (f : Nat → List α)
    (hf : ∀ i, (f i).length = len) (i t : Nat) (hi : i < n) (ht : t < len) :
    ((List.range n).flatMap f)[i * len + t]? = (f i)[t]? := by
  induction n with
  | zero => omega
  | succ n ih =>
    rw [List.range_succ, List.flatMap_append]
    by_cases h : i < n
    · have hlt : i * len + t < ((List.range n).flatMap f).length := by
        rw [length_flatMap_range n len f hf]
        calc i * len + t < i * len + len := by omega
          _ = (i + 1) * len := by ring
          _ ≤ n * len := Nat.mul_le_mul_right _ h
      rw [List.getElem?_append_left hlt]
      exact ih h
    · have hin : i = n := by omega
      subst hin
      have hge : ((List.range i).flatMap f).length ≤ i * len + t := by
        rw [length_flatMap_range i len f hf]; omega
      rw [List.getElem?_append_right hge, length_flatMap_range i len f hf]
      simp

/-- With a non-empty orientation list and defined per-axis counts, `sampleUniform`
returns true, sets `ordered` and appends the grid of its four nested loops. -/
theorem sampleUniform_eq (workspace : WorkspacePoints) (nx ny nz : Nat)
    (ho : workspace.orientations ≠ []) (hn : getNumPoints workspace = some (nx, ny, nz)) :
    sampleUniform workspace =
      some (true,
        { workspace with
          ordered := true
          points := workspace.points ++
            gridPoints workspace nx ny nz (workspace.orientations.length % UINT_RANGE) }) := by
  have hn2 : getNumPoints { workspace with ordered := true } = some (nx, ny, nz) := hn
  have he : workspace.orientations.isEmpty = false := by
    cases h : workspace.orientations with
    | nil => exact absurd h ho
    | cons a l => rfl
  unfold sampleUniform
  simp only [he, hn2, forLoop_append]
  rfl

/-- The grid has `nx * ny * nz * nr` points. -/
theorem length_gridPoints (workspace : WorkspacePoints) (nx ny nz nr : Nat) :
    (gridPoints workspace nx ny nz nr).length = nx * ny * nz * nr := by
  unfold gridPoints
  rw [length_flatMap_range nx (ny * nz * nr)]
  · ring
  intro i
  rw [length_flatMap_range ny (nz * nr)]
  · ring
  intro j
  rw [length_flatMap_range nz nr]
  intro k
  rw [length_flatMap_range nr 1]
  · simp
  intro m
  rfl

/-- For a positive resolution the converted quotient is the floor, when it is
representable. -/
theorem quotientToUnsignedInt_of_pos (dim resolution : ℚ) (hd : 0 ≤ dim) (hr : 0 < resolution)
    (hb : ⌊dim / resolution⌋₊ < UINT_RANGE) :
    quotientToUnsignedInt dim resolution = some ⌊dim / resolution⌋₊ := by
  have hq : 0 ≤ dim / resolution := div_nonneg hd hr.le
  have hf : (0 : Int) ≤ ⌊dim / resolution⌋ := Int.floor_nonneg.mpr hq
  have ht : ⌊dim / resolution⌋.toNat = ⌊dim / resolution⌋₊ := rfl
  have hlt : ⌊dim / resolution⌋ < (UINT_RANGE : Int) := by
    have : ((⌊dim / resolution⌋.toNat : Nat) : Int) < (UINT_RANGE : Int) := by
      rw [ht]; exact_mod_cast hb
    rwa [Int.toNat_of_nonneg hf] at this
  unfold quotientToUnsignedInt toUnsignedInt
  simp only [hr.ne', if_false, hq, if_true, hf, hlt, and_self, ht]

/-- The per-axis counts of `getNumPoints` for a positive resolution, when none
of them wraps. -/
theorem getNumPoints_of_pos (workspace : WorkspacePoints)
    (hr : 0 < workspace.position_resolution)
    (hx : ⌊|workspace.parameters.min_corner.x - workspace.parameters.max_corner.x|
      / workspace.position_resolution⌋₊ + 1 < UINT_RANGE)
    (hy : ⌊|workspace.parameters.min_corner.y - workspace.parameters.max_corner.y|
      / workspace.position_resolution⌋₊ + 1 < UINT_RANGE)
    (hz : ⌊|workspace.parameters.min_corner.z - workspace.parameters.max_corner.z|
      / workspace.position_resolution⌋₊ + 1 < UINT_RANGE) :
    getNumPoints workspace =
      some (⌊|workspace.parameters.min_corner.x - workspace.parameters.max_corner.x|
              / workspace.position_resolution⌋₊ + 1,
            ⌊|workspace.parameters.min_corner.y - workspace.parameters.max_corner.y|
              / workspace.position_resolution⌋₊ + 1,
            ⌊|workspace.parameters.min_corner.z - workspace.parameters.max_corner.z|
              / workspace.position_resolution⌋₊ + 1) := by
  unfold getNumPoints
  simp only [quotientToUnsignedInt_of_pos _ _ (abs_nonneg _) hr (Nat.lt_of_succ_lt hx),
    quotientToUnsignedInt_of_pos _ _ (abs_nonneg _) hr (Nat.lt_of_succ_lt hy),
    quotientToUnsignedInt_of_pos _ _ (abs_nonneg _) hr (Nat.lt_of_succ_lt hz),
    Nat.mod_eq_of_lt hx, Nat.mod_eq_of_lt hy, Nat.mod_eq_of_lt hz]

/-- Claim C1, as amended: for a workspace with `position_resolution > 0`, a non-empty
orientation list of fewer than `2 ^ 32` entries and corners for which each
per-axis count `⌊d/r⌋ + 1` is below `2 ^ 32`, `sampleUniform` returns true and
appends exactly `(⌊dx/r⌋+1)·(⌊dy/r⌋+1)·(⌊dz/r⌋+1)·|orientations|` points to the
points already in the list, which it keeps in front; when the list was empty,
the list after the call has exactly that many points. -/
theorem sampleUniform_appends_expected_count (workspace : WorkspacePoints)
    (hr : 0 < workspace.position_resolution)
    (ho : workspace.orientations ≠ [])
    (hR : workspace.orientations.length < UINT_RANGE)
    (hx : ⌊|workspace.parameters.min_corner.x - workspace.parameters.max_corner.x|
      / workspace.position_resolution⌋₊ + 1 < UINT_RANGE)
    (hy : ⌊|workspace.parameters.min_corner.y - workspace.parameters.max_corner.y|
      / workspace.position_resolution⌋₊ + 1 < UINT_RANGE)
    (hz : ⌊|workspace.parameters.min_corner.z - workspace.parameters.max_corner.z|
      / workspace.position_resolution⌋₊ + 1 < UINT_RANGE) :
    ∃ result : WorkspacePoints,
      sampleUniform workspace = some (true, result) ∧
      result.points.length = workspace.points.length + expectedNumPoints workspace ∧
      result.points.take workspace.points.length = workspace.points ∧
      (workspace.points = [] → result.points.length = expectedNumPoints workspace) := by
  refine ⟨_, sampleUniform_eq workspace _ _ _ ho (getNumPoints_of_pos workspace hr hx hy hz), ?_, ?_, ?_⟩
  · simp only [List.length_append, length_gridPoints, Nat.mod_eq_of_lt hR, expectedNumPoints]
  · simp
  · intro he
    simp only [he, List.nil_append, length_gridPoints, Nat.mod_eq_of_lt hR, expectedNumPoints]

theorem expectedNumPoints_scenario : expectedNumPoints scenarioWorkspace = 3 := by
  norm_num [expectedNumPoints, scenarioWorkspace]

/-- Witness of C1 at the scenario of the specification: corners `(0,0,0)` and
`(1,0,0)`, resolution `0.5`, one orientation give exactly three points. -/
theorem sampleUniform_appends_expected_count_witness :
    ∃ result : WorkspacePoints,
      sampleUniform scenarioWorkspace = some (true, result) ∧ result.points.length = 3 := by
  obtain ⟨result, h1, _, _, h4⟩ :=
    sampleUniform_appends_expected_count scenarioWorkspace
      (by norm_num [scenarioWorkspace]) (by simp [scenarioWorkspace])
      (by norm_num [scenarioWorkspace, UINT_RANGE])
      (by norm_num [scenarioWorkspace, UINT_RANGE])
      (by norm_num [scenarioWorkspace, UINT_RANGE])
      (by norm_num [scenarioWorkspace, UINT_RANGE])
  exact ⟨result, h1, by rw [h4 rfl, expectedNumPoints_scenario]⟩

/-- Counterexample to C1 as stated.  First input: the scenario workspace with one
point already in the list ends with four points, not the promised three.
Second input: with an x extent of `2 ^ 32 - 1` steps the 32-bit count
`x_num_points` wraps to zero and no point is produced, where `2 ^ 32` are
promised. -/
theorem sampleUniform_count_counterexample :
    (0 < scenarioWithExistingPoint.position_resolution ∧
      scenarioWithExistingPoint.orientations ≠ [] ∧
      ¬ ∃ result : WorkspacePoints,
        sampleUniform scenarioWithExistingPoint = some (true, result) ∧
        result.points.length = expectedNumPoints scenarioWithExistingPoint) ∧
    (0 < wideWorkspace.position_resolution ∧
      wideWorkspace.orientations ≠ [] ∧
      wideWorkspace.points = [] ∧
      ¬ ∃ result : WorkspacePoints,
        sampleUniform wideWorkspace = some (true, result) ∧
        result.points.length = expectedNumPoints wideWorkspace) := by
  have e1 : sampleUniform scenarioWithExistingPoint =
      some (true, { scenarioWithExistingPoint with
        ordered := true
        points := scenarioWithExistingPoint.points ++
          gridPoints scenarioWithExistingPoint 3 1 1 1 }) :=
    sampleUniform_eq _ 3 1 1 (by simp [scenarioWithExistingPoint, scenarioWorkspace])
      (by norm_num [getNumPoints, quotientToUnsignedInt, toUnsignedInt, UINT_RANGE,
        scenarioWithExistingPoint, scenarioWorkspace]; rfl)
  have e2 : sampleUniform wideWorkspace =
      some (true, { wideWorkspace with
        ordered := true
        points := wideWorkspace.points ++ gridPoints wideWorkspace 0 1 1 1 }) :=
    sampleUniform_eq _ 0 1 1 (by simp [wideWorkspace])
      (by norm_num [getNumPoints, quotientToUnsignedInt, toUnsignedInt, UINT_RANGE,
        wideWorkspace]; rfl)
  refine ⟨⟨by norm_num [scenarioWithExistingPoint, scenarioWorkspace],
      by simp [scenarioWithExistingPoint, scenarioWorkspace], ?_⟩,
    ⟨by norm_num [wideWorkspace], by simp [wideWorkspace], rfl, ?_⟩⟩
  · rintro ⟨result, h, hl⟩
    rw [e1] at h
    cases h
    have h3 : expectedNumPoints scenarioWithExistingPoint = 3 := by
      norm_num [expectedNumPoints, scenarioWithExistingPoint, scenarioWorkspace]
    rw [h3] at hl
    simp [length_gridPoints, scenarioWithExistingPoint] at hl
  · rintro ⟨result, h, hl⟩
    rw [e2] at h
    cases h
    have h3 : expectedNumPoints wideWorkspace = 4294967296 := by
      norm_num [expectedNumPoints, wideWorkspace]
    rw [h3] at hl
    simp [length_gridPoints, wideWorkspace] at hl

theorem length_gridRow (workspace : WorkspacePoints) (nr i j k : Nat) :
    ((List.range nr).flatMap fun m => [samplePoint workspace i j k m]).length = nr := by
  rw [length_flatMap_range nr 1]
  · simp
  · intro m
    rfl

/-- Flat indexing of the grid in x-major, then y, then z, then orientation order. -/
theorem getElem?_gridPoints (workspace : WorkspacePoints) (nx ny nz nr i j k m : Nat)
    (hi : i < nx) (hj : j < ny) (hk : k < nz) (hm : m < nr) :
    (gridPoints workspace nx ny nz nr)[((i * ny + j) * nz + k) * nr + m]? =
      some (samplePoint workspace i j k m) := by
  have hkm : k * nr + m < nz * nr := by
    calc k * nr + m < k * nr + nr := by omega
      _ = (k + 1) * nr := by ring
      _ ≤ nz * nr := Nat.mul_le_mul_right _ hk
  have hjkm : j * (nz * nr) + (k * nr + m) < ny * (nz * nr) := by
    calc j * (nz * nr) + (k * nr + m) < j * (nz * nr) + nz * nr := by omega
      _ = (j + 1) * (nz * nr) := by ring
      _ ≤ ny * (nz * nr) := Nat.mul_le_mul_right _ hj
  have e : ((i * ny + j) * nz + k) * nr + m
      = i * (ny * (nz * nr)) + (j * (nz * nr) + (k * nr + m)) := by ring
  unfold gridPoints
  rw [e, getElem?_flatMap_range nx (ny * (nz * nr)) _ _ i _ hi hjkm,
    getElem?_flatMap_range ny (nz * nr) _ _ j _ hj hkm,
    getElem?_flatMap_range nz nr _ _ k m hk hm]
  · have h1 := getElem?_flatMap_range nr 1 (fun m => [samplePoint workspace i j k m])
      (fun _ => rfl) m 0 hm (by omega)
    simpa using h1
  · intro k2
    exact length_gridRow workspace nr i j k2
  · intro j2
    rw [length_flatMap_range nz nr]
    intro k2
    exact length_gridRow workspace nr i j2 k2
  · intro i2
    rw [length_flatMap_range ny (nz * nr)]
    intro j2
    rw [length_flatMap_range nz nr]
    intro k2
    exact length_gridRow workspace nr i2 j2 k2

/-- Claim C2, as amended: for a workspace with a non-empty orientation list of
`R < 2 ^ 32` entries and per-axis counts `nx, ny, nz` computed by `getNumPoints`
(any resolution for which they are defined, so every positive one), for all
`i < nx`, `j < ny`, `k < nz`, `m < R` the point produced by `sampleUniform` at flat
index `((i*ny + j)*nz + k)*R + m` (counted from the first appended point) has
position `(x_min + i*r, y_min + j*r, z_min + k*r)`, orientation `orientations[m]`,
and an unset classification and configuration. -/
theorem sampleUniform_enumeration_order (workspace : WorkspacePoints) (nx ny nz : Nat)
    (ho : workspace.orientations ≠ [])
    (hR : workspace.orientations.length < UINT_RANGE)
    (hn : getNumPoints workspace = some (nx, ny, nz))
    (i j k m : Nat) (hi : i < nx) (hj : j < ny) (hk : k < nz)
    (hm : m < workspace.orientations.length) :
    ∃ result : WorkspacePoints,
      sampleUniform workspace = some (true, result) ∧
      (result.points.drop workspace.points.length)[
          ((i * ny + j) * nz + k) * workspace.orientations.length + m]? =
        some
          { pose :=
              { position :=
                  { x := workspace.parameters.min_corner.x
                      + (i : ℚ) * workspace.position_resolution
                    y := workspace.parameters.min_corner.y
                      + (j : ℚ) * workspace.position_resolution
                    z := workspace.parameters.min_corner.z
                      + (k : ℚ) * workspace.position_resolution }
                orientation := workspace.orientations[m] }
            robot_state := {}
            solution_code := {} } := by
  refine ⟨_, sampleUniform_eq workspace nx ny nz ho hn, ?_⟩
  simp only [List.drop_left, Nat.mod_eq_of_lt hR]
  rw [getElem?_gridPoints workspace nx ny nz _ i j k m hi hj hk hm]
  simp [samplePoint, List.getD_eq_getElem?_getD, List.getElem?_eq_getElem hm]

/-- Witness of C2 at the scenario workspace: the point at flat index 2 is the one
at `x = 1`. -/
theorem sampleUniform_enumeration_order_witness :
    ∃ result : WorkspacePoints,
      sampleUniform scenarioWorkspace = some (true, result) ∧
      (result.points.drop 0)[2]? =
        some { pose := { position := { x := 1, y := 0, z := 0 }, orientation := { w := 1 } } } := by
  obtain ⟨result, h1, h2⟩ :=
    sampleUniform_enumeration_order scenarioWorkspace 3 1 1
      (by simp [scenarioWorkspace]) (by norm_num [scenarioWorkspace, UINT_RANGE])
      (by norm_num [getNumPoints, quotientToUnsignedInt, toUnsignedInt, UINT_RANGE,
        scenarioWorkspace]; rfl)
      2 0 0 0 (by omega) (by omega) (by omega) (by simp [scenarioWorkspace])
  refine ⟨result, h1, ?_⟩
  have h3 : (result.points.drop 0)[2]? = _ := h2
  rw [h3]
  norm_num [scenarioWorkspace]

theorem manyOrientations_length :
    manyOrientationsWorkspace.orientations.length = UINT_RANGE :=
  List.length_replicate _ _

theorem manyOrientations_getNumPoints :
    getNumPoints manyOrientationsWorkspace = some (1, 1, 1) := by
  have h1 : manyOrientationsWorkspace.position_resolution = 1 := rfl
  have h2 : manyOrientationsWorkspace.parameters = {} := rfl
  unfold getNumPoints
  rw [h1, h2]
  norm_num [quotientToUnsignedInt, toUnsignedInt, UINT_RANGE]

/-- Counterexample to C2 as stated: with `2 ^ 32` orientations the 32-bit
`num_rotations` is zero, so no point is produced at flat index 0 although
`i = j = k = m = 0` are all in range. -/
theorem sampleUniform_enumeration_order_counterexample :
    0 < manyOrientationsWorkspace.position_resolution ∧
    manyOrientationsWorkspace.orientations ≠ [] ∧
    getNumPoints manyOrientationsWorkspace = some (1, 1, 1) ∧
    0 < manyOrientationsWorkspace.orientations.length ∧
    ∃ result : WorkspacePoints,
      sampleUniform manyOrientationsWorkspace = some (true, result) ∧
      (result.points.drop manyOrientationsWorkspace.points.length)[
          ((0 * 1 + 0) * 1 + 0) * manyOrientationsWorkspace.orientations.length + 0]? = none := by
  have hr : manyOrientationsWorkspace.position_resolution = 1 := rfl
  have hpos : 0 < manyOrientationsWorkspace.orientations.length := by
    rw [manyOrientations_length]; norm_num [UINT_RANGE]
  have hne : manyOrientationsWorkspace.orientations ≠ [] :=
    List.ne_nil_of_length_pos hpos
  refine ⟨by rw [hr]; norm_num, hne, manyOrientations_getNumPoints, hpos, _,
    sampleUniform_eq _ 1 1 1 hne manyOrientations_getNumPoints, ?_⟩
  have h0 : manyOrientationsWorkspace.orientations.length % UINT_RANGE = 0 := by
    rw [manyOrientations_length, Nat.mod_self]
  simp only [List.drop_left, h0]
  have hl := length_gridPoints manyOrientationsWorkspace 1 1 1 0
  rw [List.getElem?_eq_none_iff]
  omega

/-! ## Cache bridge and IK orchestration -/

/-- Claim C4: for every request and every cache held by the engine, if the squared
distance `x² + y² + z²` of the request pose's position from the origin is greater
than or equal to the `max²` reported by `getMinMaxSquaredDistance`,
`updateFromCache` returns false, leaves the request (its seed included)
unchanged and makes no call other than `getMinMaxSquaredDistance`, so no
`getSolution` lookup; equality counts as out of range.  Below `max²` it returns
true after a `getSolution (pose, 0)` lookup. -/
theorem updateFromCache_out_of_range {W K : Type} (ext : External W K)
    (self : KinematicsReachability W K) (cache : K) (request : Request)
    (hc : self.kinematics_cache_ = some cache) :
    (request.ik_request.pose_stamped.pose.position.x
          * request.ik_request.pose_stamped.pose.position.x
        + request.ik_request.pose_stamped.pose.position.y
          * request.ik_request.pose_stamped.pose.position.y
        + request.ik_request.pose_stamped.pose.position.z
          * request.ik_request.pose_stamped.pose.position.z
        ≥ (ext.getMinMaxSquaredDistance cache).2 →
      updateFromCache ext self request =
        some (false, request,
          { self with calls := self.calls ++ [Call.getMinMaxSquaredDistance] })) ∧
    (request.ik_request.pose_stamped.pose.position.x
          * request.ik_request.pose_stamped.pose.position.x
        + request.ik_request.pose_stamped.pose.position.y
          * request.ik_request.pose_stamped.pose.position.y
        + request.ik_request.pose_stamped.pose.position.z
          * request.ik_request.pose_stamped.pose.position.z
        < (ext.getMinMaxSquaredDistance cache).2 →
      ∃ (seeded : Request) (engine : KinematicsReachability W K),
        updateFromCache ext self request = some (true, seeded, engine) ∧
        engine.calls = self.calls ++
          [Call.getMinMaxSquaredDistance,
           Call.getSolution request.ik_request.pose_stamped.pose 0]) := by
  constructor
  · intro h
    unfold updateFromCache
    simp only [hc]
    rw [if_pos h]
  · intro h
    unfold updateFromCache
    simp only [hc]
    rw [if_neg (not_le.mpr h)]
    exact ⟨_, _, rfl, by simp⟩

/-- Witness of C4: with `max² = 4`, squared distance `4.41` and the boundary `4`
give no seed and no lookup; squared distance `2.25` gives a lookup. -/
theorem updateFromCache_out_of_range_witness :
    updateFromCache (scenarioExternal 1) cachedEngine (requestAt (21 / 10)) =
        some (false, requestAt (21 / 10),
          { cachedEngine with calls := [Call.getMinMaxSquaredDistance] }) ∧
    updateFromCache (scenarioExternal 1) cachedEngine (requestAt 2) =
        some (false, requestAt 2,
          { cachedEngine with calls := [Call.getMinMaxSquaredDistance] }) ∧
    ∃ (seeded : Request) (engine : KinematicsReachability Unit Unit),
      updateFromCache (scenarioExternal 1) cachedEngine (requestAt (3 / 2)) =
        some (true, seeded, engine) ∧
      engine.calls =
        [Call.getMinMaxSquaredDistance, Call.getSolution (requestAt (3 / 2)).ik_request.pose_stamped.pose 0] :=
  ⟨(updateFromCache_out_of_range (scenarioExternal 1) cachedEngine () (requestAt (21 / 10)) rfl).1
      (by norm_num [requestAt, scenarioExternal]),
   (updateFromCache_out_of_range (scenarioExternal 1) cachedEngine () (requestAt 2) rfl).1
      (by norm_num [requestAt, scenarioExternal]),
   (updateFromCache_out_of_range (scenarioExternal 1) cachedEngine () (requestAt (3 / 2)) rfl).2
      (by norm_num [requestAt, scenarioExternal])⟩

theorem getDefaultIKRequest_engine {W K : Type} (ext : External W K)
    (self self1 : KinematicsReachability W K) (group_name : String) (req request : Request)
    (h : getDefaultIKRequest ext self group_name req = some (request, self1)) :
    ∃ w : W, self1 = { self with world := w } := by
  unfold getDefaultIKRequest at h
  split at h
  · exact absurd h (by simp)
  · split at h
    · exact absurd h (by simp)
    · simp only [Option.some.injEq, Prod.mk.injEq] at h
      exact ⟨_, h.2.symm⟩

theorem findIKRequest_engine {W K : Type} (ext : External W K)
    (self self1 : KinematicsReachability W K) (group_name : String)
    (pose_stamped : PoseStamped) (request : Request)
    (h : findIKRequest ext self group_name pose_stamped = some (request, self1)) :
    (∃ w : W, self1 = { self with world := w }) ∧
    request.ik_request.pose_stamped =
      { pose_stamped with
        pose := poseTFToMsg ext.rotationToMsg (toolCorrectedPose self pose_stamped.pose) } := by
  unfold findIKRequest at h
  split at h
  · exact absurd h (by simp)
  · rename_i request0 self0 h0
    obtain ⟨w, hw⟩ := getDefaultIKRequest_engine ext self self0 group_name _ request0 h0
    simp only [Option.some.injEq, Prod.mk.injEq] at h
    obtain ⟨h1, h2⟩ := h
    subst h2 h1 hw
    exact ⟨⟨w, rfl⟩, rfl⟩

theorem updateFromCache_false {W K : Type} (ext : External W K)
    (self self2 : KinematicsReachability W K) (request request2 : Request)
    (h : updateFromCache ext self request = some (false, request2, self2)) :
    request2 = request ∧
    self2 = { self with calls := self.calls ++ [Call.getMinMaxSquaredDistance] } := by
  unfold updateFromCache at h
  split at h
  · exact absurd h (by simp)
  · dsimp only at h
    split at h
    · simp only [Option.some.injEq, Prod.mk.injEq, true_and] at h
      exact ⟨h.1.symm, h.2.symm⟩
    · simp at h

theorem updateFromCache_true {W K : Type} (ext : External W K)
    (self self2 : KinematicsReachability W K) (request request2 : Request)
    (h : updateFromCache ext self request = some (true, request2, self2)) :
    self2 = { self with calls := self.calls ++
      [Call.getMinMaxSquaredDistance, Call.getSolution request.ik_request.pose_stamped.pose 0] } := by
  unfold updateFromCache at h
  split at h
  · exact absurd h (by simp)
  · dsimp only at h
    split at h
    · simp at h
    · simp only [Option.some.injEq, Prod.mk.injEq, true_and] at h
      rw [← h.2]
      simp

/-- Claim C3: for every `findIK` call made while the cache is active (`use_cache_`
true) for which `updateFromCache` supplies no seed, the classification is
`PLANNING_FAILED`, the output configuration `robot_state` is the one passed in,
and the only collaborator call made is `getMinMaxSquaredDistance`: the solver
(`getIK`) is not invoked. -/
theorem findIK_cache_miss_planning_failed {W K : Type} (ext : External W K)
    (self self1 self2 : KinematicsReachability W K) (group_name : String)
    (pose_stamped : PoseStamped) (error_code : MoveItErrorCodes) (robot_state : RobotState)
    (request request2 : Request)
    (huse : self.use_cache_ = true)
    (hreq : findIKRequest ext self group_name pose_stamped = some (request, self1))
    (hmiss : updateFromCache ext self1 request = some (false, request2, self2)) :
    findIK ext self group_name pose_stamped error_code robot_state =
        some ({ val := MoveItErrorCodes.PLANNING_FAILED }, robot_state, self2) ∧
    self2.calls = self.calls ++ [Call.getMinMaxSquaredDistance] ∧
    (∀ solver_request : Request,
      Call.getIK solver_request ∉ self2.calls.drop self.calls.length) ∧
    self2.world = self1.world := by
  obtain ⟨⟨w, hw⟩, -⟩ := findIKRequest_engine ext self self1 group_name pose_stamped request hreq
  obtain ⟨-, h2⟩ := updateFromCache_false ext self1 self2 request request2 hmiss
  have huse1 : self1.use_cache_ = true := by rw [hw]; exact huse
  have hcalls : self2.calls = self.calls ++ [Call.getMinMaxSquaredDistance] := by
    rw [h2, hw]
  refine ⟨?_, hcalls, ?_, by rw [h2]⟩
  · unfold findIK
    simp only [hreq, huse1, if_true, hmiss]
  · intro solver_request
    rw [hcalls]
    simp

/-- Witness of C3: active cache with `max² = 4`, target at squared distance 9 with
the identity orientation. -/
theorem findIK_cache_miss_planning_failed_witness :
    findIK (scenarioExternal 1) cachedEngine "arm"
        { pose := { position := { x := 3 }, orientation := { w := 1 } } }
        { val := 0 } { joint_state := { name := ["j"], position := [5] } } =
      some ({ val := MoveItErrorCodes.PLANNING_FAILED },
        { joint_state := { name := ["j"], position := [5] } },
        { cachedEngine with calls := [Call.getMinMaxSquaredDistance] }) :=
  (findIK_cache_miss_planning_failed (scenarioExternal 1) cachedEngine cachedEngine
    { cachedEngine with calls := [Call.getMinMaxSquaredDistance] } "arm"
    { pose := { position := { x := 3 }, orientation := { w := 1 } } } { val := 0 }
    { joint_state := { name := ["j"], position := [5] } }
    { ik_request :=
        { ik_link_name := "tip"
          pose_stamped := { pose := { position := { x := 3 }, orientation := { w := 1 } } }
          ik_seed_state := { joint_state := { name := ["j"], position := [0] } } }
      timeout := 5 }
    { ik_request :=
        { ik_link_name := "tip"
          pose_stamped := { pose := { position := { x := 3 }, orientation := { w := 1 } } }
          ik_seed_state := { joint_state := { name := ["j"], position := [0] } } }
      timeout := 5 }
    rfl
    (by
      simp [findIKRequest, getDefaultIKRequest, scenarioExternal, cachedEngine, toolCorrectedPose,
        poseTFToMsg, poseMsgToTF, Transform.mul, Transform.identity, Matrix3x3.mulVec,
        Vector3.add, Vector3.dot, Matrix3x3.identity, Matrix3x3.setRotation, Matrix3x3.mul,
        Matrix3x3.transpose])
    (by
      simp [updateFromCache, scenarioExternal, cachedEngine]
      norm_num)).1

/-! ## Compaction -/

/-- Loop invariant of the erase-or-advance loop: the elements before the iterator are
kept as they are, the elements from the iterator on are filtered. -/
theorem removeUnreachableLoop_eq (remaining : Nat) :
    ∀ (it : Nat) (points : List WorkspacePoint) (remove_counter : Nat),
      it + remaining = points.length →
      (removeUnreachableLoop remaining it points remove_counter).1 =
        points.take it ++ reachablePoints (points.drop it) := by
  induction remaining with
  | zero =>
    intro it points remove_counter h
    have hit : it = points.length := by omega
    simp [removeUnreachableLoop, hit, reachablePoints]
  | succ remaining ih =>
    intro it points remove_counter h
    have hlt : it < points.length := by omega
    have hdrop : points.drop it = points[it] :: points.drop (it + 1) :=
      List.drop_eq_getElem_cons hlt
    unfold removeUnreachableLoop
    rw [List.getElem?_eq_getElem hlt]
    dsimp only
    by_cases hp : points[it].solution_code.val = MoveItErrorCodes.SUCCESS
    · have ht : points.take (it + 1) = points.take it ++ [points[it]] := by
        rw [List.take_succ, List.getElem?_eq_getElem hlt]; rfl
      have hf : reachablePoints (points[it] :: points.drop (it + 1)) =
          points[it] :: reachablePoints (points.drop (it + 1)) :=
        List.filter_cons_of_pos (by simpa using hp)
      rw [if_neg (not_not.mpr hp), ih (it + 1) points remove_counter (by omega), hdrop, ht, hf,
        List.append_assoc, List.singleton_append]
    · have hlen : it + remaining = (points.eraseIdx it).length := by
        rw [List.length_eraseIdx, if_pos hlt]; omega
      have htl : (points.take it).length = it := by
        rw [List.length_take]; omega
      have hf : reachablePoints (points[it] :: points.drop (it + 1)) =
          reachablePoints (points.drop (it + 1)) :=
        List.filter_cons_of_neg (by simpa using hp)
      rw [if_pos hp, ih it (points.eraseIdx it) _ hlen, hdrop, hf,
        List.eraseIdx_eq_take_drop_succ, List.take_left' htl, List.drop_left' htl]

/-- Claim C6: for every workspace, `removeUnreachableWorkspace` leaves in the point
list exactly the points whose `solution_code` is `SUCCESS`, unmodified and in
their original relative order (the result is the order-preserving filter of the
input list), and changes no other field of the workspace. -/
theorem removeUnreachableWorkspace_eq_filter (workspace : WorkspacePoints) :
    removeUnreachableWorkspace workspace =
      { workspace with
        points := workspace.points.filter fun point =>
          decide (point.solution_code.val = MoveItErrorCodes.SUCCESS) } := by
  unfold removeUnreachableWorkspace
  rw [removeUnreachableLoop_eq workspace.points.length 0 workspace.points 0 (by omega)]
  simp [reachablePoints]

/-! ## Tool frame adapter -/

theorem setRotation_of_unit (q : Quaternion)
    (hq : q.x * q.x + q.y * q.y + q.z * q.z + q.w * q.w = 1) :
    Matrix3x3.setRotation q =
      { r0 := { x := 1 - 2 * (q.y * q.y + q.z * q.z), y := 2 * (q.x * q.y - q.w * q.z),
                z := 2 * (q.x * q.z + q.w * q.y) }
        r1 := { x := 2 * (q.x * q.y + q.w * q.z), y := 1 - 2 * (q.x * q.x + q.z * q.z),
                z := 2 * (q.y * q.z - q.w * q.x) }
        r2 := { x := 2 * (q.x * q.z - q.w * q.y), y := 2 * (q.y * q.z + q.w * q.x),
                z := 1 - 2 * (q.x * q.x + q.y * q.y) } } := by
  unfold Matrix3x3.setRotation
  simp only [hq, div_one]
  ext <;> (simp only []; ring)

theorem setRotation_mul_transpose (q : Quaternion)
    (hq : q.x * q.x + q.y * q.y + q.z * q.z + q.w * q.w = 1) :
    (Matrix3x3.setRotation q).mul (Matrix3x3.setRotation q).transpose = Matrix3x3.identity := by
  rw [setRotation_of_unit q hq]
  simp only [Matrix3x3.mul, Matrix3x3.transpose, Vector3.dot, Matrix3x3.identity]
  ext <;> simp only []
  · linear_combination (4 * (q.y * q.y + q.z * q.z)) * hq
  · linear_combination (-4 * (q.x * q.y)) * hq
  · linear_combination (-4 * (q.x * q.z)) * hq
  · linear_combination (-4 * (q.x * q.y)) * hq
  · linear_combination (4 * (q.x * q.x + q.z * q.z)) * hq
  · linear_combination (-4 * (q.y * q.z)) * hq
  · linear_combination (-4 * (q.x * q.z)) * hq
  · linear_combination (-4 * (q.y * q.z)) * hq
  · linear_combination (4 * (q.x * q.x + q.y * q.y)) * hq

theorem setRotation_transpose_mul (q : Quaternion)
    (hq : q.x * q.x + q.y * q.y + q.z * q.z + q.w * q.w = 1) :
    (Matrix3x3.setRotation q).transpose.mul (Matrix3x3.setRotation q) = Matrix3x3.identity := by
  rw [setRotation_of_unit q hq]
  simp only [Matrix3x3.mul, Matrix3x3.transpose, Vector3.dot, Matrix3x3.identity]
  ext <;> simp only []
  · linear_combination (4 * (q.y * q.y + q.z * q.z)) * hq
  · linear_combination (-4 * (q.x * q.y)) * hq
  · linear_combination (-4 * (q.x * q.z)) * hq
  · linear_combination (-4 * (q.x * q.y)) * hq
  · linear_combination (4 * (q.x * q.x + q.z * q.z)) * hq
  · linear_combination (-4 * (q.y * q.z)) * hq
  · linear_combination (-4 * (q.x * q.z)) * hq
  · linear_combination (-4 * (q.y * q.z)) * hq
  · linear_combination (4 * (q.x * q.x + q.y * q.y)) * hq

theorem Transform.mul_assoc (a b c : Transform) : (a.mul b).mul c = a.mul (b.mul c) := by
  simp only [Transform.mul, Matrix3x3.mul, Matrix3x3.transpose, Matrix3x3.mulVec, Vector3.dot,
    Vector3.add]
  ext <;> (simp only []; ring)

theorem Transform.mul_identity (a : Transform) : a.mul Transform.identity = a := by
  simp only [Transform.mul, Transform.identity, Matrix3x3.mul, Matrix3x3.transpose,
    Matrix3x3.mulVec, Vector3.dot, Vector3.add, Matrix3x3.identity]
  ext <;> (simp only []; ring)

theorem Transform.mul_inverse (t : Transform)
    (h : t.basis.mul t.basis.transpose = Matrix3x3.identity) :
    t.mul t.inverse = Transform.identity := by
  have h0x := congrArg (fun m => m.r0.x) h
  have h0y := congrArg (fun m => m.r0.y) h
  have h0z := congrArg (fun m => m.r0.z) h
  have h1x := congrArg (fun m => m.r1.x) h
  have h1y := congrArg (fun m => m.r1.y) h
  have h1z := congrArg (fun m => m.r1.z) h
  have h2x := congrArg (fun m => m.r2.x) h
  have h2y := congrArg (fun m => m.r2.y) h
  have h2z := congrArg (fun m => m.r2.z) h
  simp only [Matrix3x3.mul, Matrix3x3.transpose, Vector3.dot,
    Matrix3x3.identity] at h0x h0y h0z h1x h1y h1z h2x h2y h2z
  simp only [Transform.mul, Transform.inverse, Transform.identity, Matrix3x3.mul,
    Matrix3x3.transpose, Matrix3x3.mulVec, Vector3.dot, Vector3.add, Vector3.neg,
    Matrix3x3.identity]
  ext <;> simp only []
  · linear_combination h0x
  · linear_combination h0y
  · linear_combination h0z
  · linear_combination h1x
  · linear_combination h1y
  · linear_combination h1z
  · linear_combination h2x
  · linear_combination h2y
  · linear_combination h2z
  · linear_combination (-t.origin.x) * h0x + (-t.origin.y) * h0y + (-t.origin.z) * h0z
  · linear_combination (-t.origin.x) * h1x + (-t.origin.y) * h1y + (-t.origin.z) * h1z
  · linear_combination (-t.origin.x) * h2x + (-t.origin.y) * h2y + (-t.origin.z) * h2z

theorem Transform.inverse_mul (t : Transform)
    (h : t.basis.transpose.mul t.basis = Matrix3x3.identity) :
    t.inverse.mul t = Transform.identity := by
  have h0x := congrArg (fun m => m.r0.x) h
  have h0y := congrArg (fun m => m.r0.y) h
  have h0z := congrArg (fun m => m.r0.z) h
  have h1x := congrArg (fun m => m.r1.x) h
  have h1y := congrArg (fun m => m.r1.y) h
  have h1z := congrArg (fun m => m.r1.z) h
  have h2x := congrArg (fun m => m.r2.x) h
  have h2y := congrArg (fun m => m.r2.y) h
  have h2z := congrArg (fun m => m.r2.z) h
  simp only [Matrix3x3.mul, Matrix3x3.transpose, Vector3.dot,
    Matrix3x3.identity] at h0x h0y h0z h1x h1y h1z h2x h2y h2z
  simp only [Transform.mul, Transform.inverse, Transform.identity, Matrix3x3.mul,
    Matrix3x3.transpose, Matrix3x3.mulVec, Vector3.dot, Vector3.add, Vector3.neg,
    Matrix3x3.identity]
  ext <;> simp only []
  · linear_combination h0x
  · linear_combination h0y
  · linear_combination h0z
  · linear_combination h1x
  · linear_combination h1y
  · linear_combination h1z
  · linear_combination h2x
  · linear_combination h2y
  · linear_combination h2z
  · ring
  · ring
  · ring

theorem updateFromCache_true_request {W K : Type} (ext : External W K)
    (self self2 : KinematicsReachability W K) (request request2 : Request)
    (h : updateFromCache ext self request = some (true, request2, self2)) :
    request2.ik_request.pose_stamped = request.ik_request.pose_stamped ∧
    request2.ik_request.ik_link_name = request.ik_request.ik_link_name ∧
    request2.timeout = request.timeout := by
  unfold updateFromCache at h
  split at h
  · exact absurd h (by simp)
  · dsimp only at h
    split at h
    · simp at h
    · simp only [Option.some.injEq, Prod.mk.injEq, true_and] at h
      rw [← h.1]
      exact ⟨rfl, rfl, rfl⟩

theorem findIK_solver_calls {W K : Type} (ext : External W K)
    (self engine : KinematicsReachability W K) (group_name : String)
    (pose_stamped : PoseStamped) (error_code code : MoveItErrorCodes)
    (robot_state solution : RobotState)
    (h : findIK ext self group_name pose_stamped error_code robot_state =
      some (code, solution, engine)) :
    ∀ solver_request : Request,
      Call.getIK solver_request ∈ engine.calls.drop self.calls.length →
      solver_request.ik_request.pose_stamped =
        { pose_stamped with
          pose := poseTFToMsg ext.rotationToMsg (toolCorrectedPose self pose_stamped.pose) } := by
  unfold findIK at h
  split at h
  · exact absurd h (by simp)
  · rename_i request self1 hreq
    obtain ⟨⟨w, hw⟩, hpose⟩ :=
      findIKRequest_engine ext self self1 group_name pose_stamped request hreq
    have hcalls1 : self1.calls = self.calls := by rw [hw]
    split at h
    · split at h
      · exact absurd h (by simp)
      · rename_i r2 s2 hupd
        obtain ⟨-, hs2⟩ := updateFromCache_false ext self1 s2 request r2 hupd
        simp only [Option.some.injEq, Prod.mk.injEq] at h
        intro solver_request hmem
        rw [← h.2.2, hs2] at hmem
        simp [hcalls1] at hmem
      · rename_i r2 s2 hupd
        have hs2 := updateFromCache_true ext self1 s2 request r2 hupd
        obtain ⟨hp2, -, -⟩ := updateFromCache_true_request ext self1 s2 request r2 hupd
        simp only [findIKSolve, Option.some.injEq, Prod.mk.injEq] at h
        intro solver_request hmem
        rw [← h.2.2, hs2] at hmem
        simp [hcalls1] at hmem
        rw [hmem, hp2, hpose]
    · simp only [findIKSolve, Option.some.injEq, Prod.mk.injEq] at h
      intro solver_request hmem
      rw [← h.2.2] at hmem
      simp [hcalls1] at hmem
      rw [hmem, hpose]

/-- Claim C10: for every tool offset pose `p` with a unit quaternion and every
caller pose `c`: after `setToolFrameOffset (p)` the stored offset is the
transform of `p` and the stored inverse is its inverse (offset ∘ inverse =
inverse ∘ offset = identity); the pose `findIK` computes for the solver is
`s = c ∘ offset⁻¹`, every `getIK` call of `findIK` carries the message of `s`,
and composing `s` with the offset recovers `c` exactly. -/
theorem toolFrameOffset_inverse_roundtrip {W K : Type} (ext : External W K)
    (self : KinematicsReachability W K) (p c : Pose)
    (hp : p.orientation.x * p.orientation.x + p.orientation.y * p.orientation.y
      + p.orientation.z * p.orientation.z + p.orientation.w * p.orientation.w = 1) :
    (setToolFrameOffset self p).tool_offset_ = poseMsgToTF p ∧
    (setToolFrameOffset self p).tool_offset_.mul (setToolFrameOffset self p).tool_offset_inverse_
      = Transform.identity ∧
    (setToolFrameOffset self p).tool_offset_inverse_.mul (setToolFrameOffset self p).tool_offset_
      = Transform.identity ∧
    toolCorrectedPose (setToolFrameOffset self p) c
      = (poseMsgToTF c).mul (poseMsgToTF p).inverse ∧
    (toolCorrectedPose (setToolFrameOffset self p) c).mul (setToolFrameOffset self p).tool_offset_
      = poseMsgToTF c ∧
    (∀ (group_name : String) (header : Header) (error_code code : MoveItErrorCodes)
        (robot_state solution : RobotState) (engine : KinematicsReachability W K),
      findIK ext (setToolFrameOffset self p) group_name { header := header, pose := c }
          error_code robot_state = some (code, solution, engine) →
      ∀ solver_request : Request,
        Call.getIK solver_request ∈
          engine.calls.drop (setToolFrameOffset self p).calls.length →
        solver_request.ik_request.pose_stamped.pose =
          poseTFToMsg ext.rotationToMsg ((poseMsgToTF c).mul (poseMsgToTF p).inverse)) := by
  have h1 : (poseMsgToTF p).mul (poseMsgToTF p).inverse = Transform.identity :=
    Transform.mul_inverse _ (setRotation_mul_transpose p.orientation hp)
  have h2 : (poseMsgToTF p).inverse.mul (poseMsgToTF p) = Transform.identity :=
    Transform.inverse_mul _ (setRotation_transpose_mul p.orientation hp)
  refine ⟨rfl, h1, h2, rfl, ?_, ?_⟩
  · show ((poseMsgToTF c).mul (poseMsgToTF p).inverse).mul (poseMsgToTF p) = poseMsgToTF c
    rw [Transform.mul_assoc, h2, Transform.mul_identity]
  · intro group_name header error_code code robot_state solution engine h solver_request hmem
    rw [findIK_solver_calls ext _ engine group_name _ error_code code robot_state solution h
      solver_request hmem]
    rfl

/-- Witness of C10: offset with translation `(1, 2, 3)` and unit quaternion
`(3/5, 0, 0, 4/5)`, caller pose at `(1, 0, 0)`. -/
theorem toolFrameOffset_inverse_roundtrip_witness :
    (toolCorrectedPose (setToolFrameOffset uncachedEngine scenarioToolOffset)
        scenarioCallerPose).mul (poseMsgToTF scenarioToolOffset)
      = poseMsgToTF scenarioCallerPose ∧
    (poseMsgToTF scenarioToolOffset).mul
        (setToolFrameOffset uncachedEngine scenarioToolOffset).tool_offset_inverse_
      = Transform.identity :=
  have h := toolFrameOffset_inverse_roundtrip (scenarioExternal 1) uncachedEngine
    scenarioToolOffset scenarioCallerPose (by norm_num [scenarioToolOffset])
  ⟨h.2.2.2.2.1, h.2.1⟩

/-! ## Sampler input validation -/

/-- The function `generateCache` always returns: it never dereferences an empty cache
handle, makes no solver query, leaves the flags and the solver side alone, and
holds a cache object whenever it returns true. -/
theorem generateCache_total {W K : Type} (ext : External W K)
    (self : KinematicsReachability W K) (group_name : String) (timeout : ℚ)
    (options : Options) (cache_filename : String) :
    ∃ (generated : Bool) (engine : KinematicsReachability W K),
      generateCache ext self group_name timeout options cache_filename
        = some (generated, engine) ∧
      engine.calls = self.calls ++ engine.calls.drop self.calls.length ∧
      (∀ solver_request : Request,
        Call.getIK solver_request ∉ engine.calls.drop self.calls.length) ∧
      engine.world = self.world ∧
      engine.first_time_ = self.first_time_ ∧
      engine.use_cache_ = self.use_cache_ ∧
      (generated = true → engine.kinematics_cache_.isSome = true) := by
  unfold generateCache
  dsimp only
  cases hc : self.kinematics_cache_ with
  | none =>
    cases hs : ext.hasKinematicsSolver self.world group_name with
    | true =>
      simp only [if_true]
      split_ifs
      all_goals
        refine ⟨_, _, rfl, ?_, ?_, rfl, rfl, rfl, ?_⟩
        · simp [List.append_assoc]
        · simp [List.append_assoc]
        · simp
    | false =>
      simp only [if_true, Bool.false_eq_true, if_false]
      exact ⟨_, _, rfl, by simp, by simp, rfl, rfl, rfl, by simp⟩
  | some cache =>
    dsimp only
    cases hg : (ext.getGroupName cache != group_name) with
    | true =>
      cases hs : ext.hasKinematicsSolver self.world group_name with
      | true =>
        simp only [if_true]
        split_ifs
        all_goals
          refine ⟨_, _, rfl, ?_, ?_, rfl, rfl, rfl, ?_⟩
          · simp [List.append_assoc]
          · simp [List.append_assoc]
          · simp
      | false =>
        simp only [if_true, Bool.false_eq_true, if_false]
        exact ⟨_, _, rfl, by simp, by simp, rfl, rfl, rfl, by simp⟩
    | false =>
      simp only [Bool.false_eq_true, if_false, hc]
      split_ifs
      all_goals
        refine ⟨_, _, rfl, ?_, ?_, rfl, rfl, rfl, ?_⟩
        · simp [List.append_assoc]
        · simp [List.append_assoc]
        · simp

theorem sampleUniform_of_empty (workspace : WorkspacePoints)
    (ho : workspace.orientations = []) : sampleUniform workspace = some (false, workspace) := by
  unfold sampleUniform
  simp [ho]

/-- Claim C7: for every workspace whose orientation list is empty, whatever its
corners, resolution and existing points, `sampleUniform` returns false and
leaves the workspace (its point list included) unchanged; `computeWorkspace` on
such a workspace returns false with the workspace unchanged, and none of the
collaborator calls it makes is a `getIK` query. -/
theorem sampleUniform_empty_orientations_fails {W K : Type} (ext : External W K)
    (self : KinematicsReachability W K) (workspace : WorkspacePoints) (visualize : Bool)
    (ho : workspace.orientations = []) :
    sampleUniform workspace = some (false, workspace) ∧
    ∃ engine : KinematicsReachability W K,
      computeWorkspace ext self workspace visualize = some (false, workspace, engine) ∧
      (∀ solver_request : Request,
        Call.getIK solver_request ∉ engine.calls.drop self.calls.length) ∧
      engine.world = self.world := by
  refine ⟨sampleUniform_of_empty workspace ho, ?_⟩
  unfold computeWorkspace
  cases hf : self.first_time_ with
  | false =>
    simp only [Bool.false_eq_true, if_false, sampleUniform_of_empty workspace ho]
    exact ⟨_, rfl, by simp [setToolFrameOffset], rfl⟩
  | true =>
    obtain ⟨generated, engine, hgen, -, hno, hw, -, -, -⟩ :=
      generateCache_total ext self workspace.group_name self.default_cache_timeout_
        self.default_cache_options_ self.cache_filename_
    simp only [if_true, hgen, sampleUniform_of_empty workspace ho]
    exact ⟨_, rfl, hno, hw⟩

/-- Witness of C7: a fresh engine and a workspace with two existing points and no
orientation. -/
theorem sampleUniform_empty_orientations_fails_witness :
    sampleUniform noOrientationWorkspace = some (false, noOrientationWorkspace) ∧
    ∃ engine : KinematicsReachability Unit Unit,
      computeWorkspace (scenarioExternal 1) freshEngine noOrientationWorkspace false
        = some (false, noOrientationWorkspace, engine) ∧
      (∀ solver_request : Request,
        Call.getIK solver_request ∉ engine.calls.drop freshEngine.calls.length) ∧
      engine.world = freshEngine.world :=
  sampleUniform_empty_orientations_fails (scenarioExternal 1) freshEngine
    noOrientationWorkspace false rfl

theorem quotientToUnsignedInt_of_neg (dim resolution : ℚ) (hd : 0 ≤ dim)
    (hr : resolution < 0) :
    quotientToUnsignedInt dim resolution = if dim < -resolution then some 0 else none := by
  have hne : resolution ≠ 0 := hr.ne
  have hq : dim / resolution ≤ 0 := div_nonpos_of_nonneg_of_nonpos hd hr.le
  unfold quotientToUnsignedInt toUnsignedInt
  rw [if_neg hne]
  by_cases hlt : dim < -resolution
  · rw [if_pos hlt]
    have hgt : -1 < dim / resolution := by
      rw [lt_div_iff_of_neg hr]; linarith
    by_cases h0 : 0 ≤ dim / resolution
    · have hz : dim / resolution = 0 := le_antisymm hq h0
      simp [hz, UINT_RANGE]
    · have hc : ⌈dim / resolution⌉ = 0 := by
        rw [Int.ceil_eq_iff]; push_cast; constructor <;> linarith
      simp [h0, hc, UINT_RANGE]
  · rw [if_neg hlt]
    have hle : dim / resolution ≤ -1 := by
      rw [div_le_iff_of_neg hr]; linarith
    have h0 : ¬ (0 ≤ dim / resolution) := by linarith
    have hc : ⌈dim / resolution⌉ ≤ -1 := by
      rw [Int.ceil_le]; push_cast; exact hle
    have hn : ¬ (0 ≤ ⌈dim / resolution⌉) := by omega
    simp [h0, hn]

/-- Claim C8, as amended: `sampleUniform` does not validate `position_resolution`.
For a workspace with `position_resolution ≤ 0` and a non-empty orientation list
it never returns false: when the resolution is negative and every corner
difference is smaller in magnitude than it, each per-axis count is 1 and the
call returns true after appending one point per orientation (modulo `2 ^ 32`);
in every other case (resolution zero, or some extent at least as large as the
resolution's magnitude) the conversion to `unsigned int` in `getNumPoints` has
no defined result. -/
theorem sampleUniform_nonpositive_resolution (workspace : WorkspacePoints)
    (hr : workspace.position_resolution ≤ 0) (ho : workspace.orientations ≠ []) :
    sampleUniform workspace =
      if workspace.position_resolution < 0
          ∧ |workspace.parameters.min_corner.x - workspace.parameters.max_corner.x|
              < -workspace.position_resolution
          ∧ |workspace.parameters.min_corner.y - workspace.parameters.max_corner.y|
              < -workspace.position_resolution
          ∧ |workspace.parameters.min_corner.z - workspace.parameters.max_corner.z|
              < -workspace.position_resolution then
        some (true,
          { workspace with
            ordered := true
            points := workspace.points ++
              gridPoints workspace 1 1 1 (workspace.orientations.length % UINT_RANGE) })
      else none := by
  have he : workspace.orientations.isEmpty = false := by
    cases h : workspace.orientations with
    | nil => exact absurd h ho
    | cons a l => rfl
  by_cases h0 : workspace.position_resolution = 0
  · have hn : getNumPoints { workspace with ordered := true } = none := by
      simp [getNumPoints, quotientToUnsignedInt, h0]
    rw [if_neg (by rw [h0]; simp)]
    unfold sampleUniform
    simp only [he, hn]
    rfl
  · have hneg : workspace.position_resolution < 0 := lt_of_le_of_ne hr h0
    by_cases hall :
        |workspace.parameters.min_corner.x - workspace.parameters.max_corner.x|
            < -workspace.position_resolution
        ∧ |workspace.parameters.min_corner.y - workspace.parameters.max_corner.y|
            < -workspace.position_resolution
        ∧ |workspace.parameters.min_corner.z - workspace.parameters.max_corner.z|
            < -workspace.position_resolution
    · have hn : getNumPoints workspace = some (1, 1, 1) := by
        unfold getNumPoints
        simp only [quotientToUnsignedInt_of_neg _ _ (abs_nonneg _) hneg, if_pos hall.1,
          if_pos hall.2.1, if_pos hall.2.2]
        rfl
      rw [if_pos ⟨hneg, hall⟩]
      exact sampleUniform_eq workspace 1 1 1 ho hn
    · have hn : getNumPoints { workspace with ordered := true } = none := by
        show getNumPoints workspace = none
        unfold getNumPoints
        simp only [quotientToUnsignedInt_of_neg _ _ (abs_nonneg _) hneg]
        by_cases hx : |workspace.parameters.min_corner.x - workspace.parameters.max_corner.x|
            < -workspace.position_resolution
        · by_cases hy : |workspace.parameters.min_corner.y - workspace.parameters.max_corner.y|
              < -workspace.position_resolution
          · have hz : ¬ |workspace.parameters.min_corner.z - workspace.parameters.max_corner.z|
                < -workspace.position_resolution := fun hz => hall ⟨hx, hy, hz⟩
            simp only [if_pos hx, if_pos hy, if_neg hz]
          · simp only [if_pos hx, if_neg hy]
        · simp only [if_neg hx]
      rw [if_neg (fun h => hall h.2)]
      unfold sampleUniform
      simp only [he, hn]
      rfl

/-- Witness of C8 (amended): extent `(1, 0, 0)`, resolution `-2`, two orientations
and one existing point give true and three points. -/
theorem sampleUniform_nonpositive_resolution_witness :
    ∃ result : WorkspacePoints,
      sampleUniform negativeResolutionBox = some (true, result) ∧
      result.points.length = 3 := by
  have h := sampleUniform_nonpositive_resolution negativeResolutionBox
    (by norm_num [negativeResolutionBox]) (by simp [negativeResolutionBox])
  rw [if_pos (by norm_num [negativeResolutionBox])] at h
  exact ⟨_, h, by simp [length_gridPoints, negativeResolutionBox, UINT_RANGE]⟩

/-- Counterexample to C8 as stated: with resolution `-1`, a degenerate box and one
orientation, `sampleUniform` returns true and appends a point instead of
reporting a failure. -/
theorem sampleUniform_resolution_validation_counterexample :
    negativeResolutionWorkspace.position_resolution ≤ 0 ∧
    negativeResolutionWorkspace.orientations ≠ [] ∧
    negativeResolutionWorkspace.points = [] ∧
    sampleUniform negativeResolutionWorkspace =
      some (true,
        { negativeResolutionWorkspace with
          ordered := true
          points := [{ pose := { orientation := { w := 1 } } }] }) := by
  refine ⟨by norm_num [negativeResolutionWorkspace], by simp [negativeResolutionWorkspace],
    rfl, ?_⟩
  rw [sampleUniform_eq negativeResolutionWorkspace 1 1 1 (by simp [negativeResolutionWorkspace])
    (by norm_num [getNumPoints, quotientToUnsignedInt, toUnsignedInt, UINT_RANGE,
      negativeResolutionWorkspace])]
  simp [gridPoints, samplePoint, negativeResolutionWorkspace, UINT_RANGE, List.range_succ]

/-! ## Solve pass -/

theorem findIK_uncached_eq {W K : Type} (ext : External W K)
    (self self1 : KinematicsReachability W K) (group_name : String)
    (pose_stamped : PoseStamped) (error_code : MoveItErrorCodes) (robot_state : RobotState)
    (request : Request) (huse : self.use_cache_ = false)
    (hreq : findIKRequest ext self group_name pose_stamped = some (request, self1)) :
    findIK ext self group_name pose_stamped error_code robot_state =
      some ((ext.getIK self1.world request).2.error_code,
        (ext.getIK self1.world request).2.solution,
        { self1 with
          world := (ext.getIK self1.world request).1
          calls := self1.calls ++ [Call.getIK request] }) := by
  obtain ⟨⟨w, hw⟩, -⟩ := findIKRequest_engine ext self self1 group_name pose_stamped request hreq
  have huse1 : self1.use_cache_ = false := by rw [hw]; exact huse
  unfold findIK
  simp only [hreq, huse1, Bool.false_eq_true, if_false, findIKSolve]

theorem findIK_seeded_eq {W K : Type} (ext : External W K)
    (self self1 self2 : KinematicsReachability W K) (group_name : String)
    (pose_stamped : PoseStamped) (error_code : MoveItErrorCodes) (robot_state : RobotState)
    (request seeded : Request) (huse : self.use_cache_ = true)
    (hreq : findIKRequest ext self group_name pose_stamped = some (request, self1))
    (hseed : updateFromCache ext self1 request = some (true, seeded, self2)) :
    findIK ext self group_name pose_stamped error_code robot_state =
      some ((ext.getIK self2.world seeded).2.error_code,
        (ext.getIK self2.world seeded).2.solution,
        { self2 with
          world := (ext.getIK self2.world seeded).1
          calls := self2.calls ++ [Call.getIK seeded] }) := by
  obtain ⟨⟨w, hw⟩, -⟩ := findIKRequest_engine ext self self1 group_name pose_stamped request hreq
  have huse1 : self1.use_cache_ = true := by rw [hw]; exact huse
  unfold findIK
  simp only [hreq, huse1, if_true, hseed, findIKSolve]

/-- What every returning `findIK` call guarantees: the cache handle, the cache flag and
the file name are untouched, and the classification is `PLANNING_FAILED` or a
solver response code. -/
theorem findIK_some_spec {W K : Type} (ext : External W K)
    (self engine : KinematicsReachability W K) (group_name : String)
    (pose_stamped : PoseStamped) (error_code code : MoveItErrorCodes)
    (robot_state solution : RobotState)
    (h : findIK ext self group_name pose_stamped error_code robot_state =
      some (code, solution, engine)) :
    engine.kinematics_cache_ = self.kinematics_cache_ ∧
    engine.use_cache_ = self.use_cache_ ∧
    engine.cache_filename_ = self.cache_filename_ ∧
    Classified ext code := by
  cases hreq : findIKRequest ext self group_name pose_stamped with
  | none => simp [findIK, hreq] at h
  | some val =>
    obtain ⟨request, self1⟩ := val
    obtain ⟨⟨w, hw⟩, -⟩ :=
      findIKRequest_engine ext self self1 group_name pose_stamped request hreq
    rcases Bool.eq_false_or_eq_true self.use_cache_ with huse | huse
    · have huse1 : self1.use_cache_ = true := by rw [hw]; exact huse
      cases hupd : updateFromCache ext self1 request with
      | none => simp [findIK, hreq, huse1, hupd] at h
      | some val2 =>
        obtain ⟨seededOk, seeded, self2⟩ := val2
        cases seededOk with
        | false =>
          obtain ⟨-, hs2⟩ := updateFromCache_false ext self1 self2 request seeded hupd
          simp only [findIK, hreq, huse1, if_true, hupd, Option.some.injEq,
            Prod.mk.injEq] at h
          obtain ⟨h1, -, h3⟩ := h
          subst h3 hs2 hw
          exact ⟨rfl, rfl, rfl, Or.inl (by rw [← h1])⟩
        | true =>
          have hs2 := updateFromCache_true ext self1 self2 request seeded hupd
          rw [findIK_seeded_eq ext self self1 self2 group_name pose_stamped error_code
            robot_state request seeded huse hreq hupd] at h
          simp only [Option.some.injEq, Prod.mk.injEq] at h
          obtain ⟨h1, -, h3⟩ := h
          subst h3 hs2 hw
          exact ⟨rfl, rfl, rfl, Or.inr ⟨_, _, h1.symm⟩⟩
    · rw [findIK_uncached_eq ext self self1 group_name pose_stamped error_code robot_state
        request huse hreq] at h
      simp only [Option.some.injEq, Prod.mk.injEq] at h
      obtain ⟨h1, -, h3⟩ := h
      subst h3 hw
      exact ⟨rfl, rfl, rfl, Or.inr ⟨_, _, h1.symm⟩⟩

/-- The call `findIK` returns whenever the group is known to the kinematic model and
the engine holds a cache object. -/
theorem findIK_isSome {W K : Type} (ext : External W K)
    (self : KinematicsReachability W K) (group_name : String)
    (pose_stamped : PoseStamped) (error_code : MoveItErrorCodes) (robot_state : RobotState)
    (joint_model_group : JointModelGroup)
    (hg : ext.getJointModelGroup group_name = some joint_model_group)
    (hl : joint_model_group.link_model_names ≠ [])
    (hc : self.kinematics_cache_.isSome = true) :
    ∃ (code : MoveItErrorCodes) (solution : RobotState) (engine : KinematicsReachability W K),
      findIK ext self group_name pose_stamped error_code robot_state =
        some (code, solution, engine) := by
  obtain ⟨link, hlink⟩ : ∃ link, joint_model_group.link_model_names.getLast? = some link := by
    cases hll : joint_model_group.link_model_names.getLast? with
    | none => exact absurd (List.getLast?_eq_none_iff.mp hll) hl
    | some link => exact ⟨link, rfl⟩
  obtain ⟨cache, hcache⟩ := Option.isSome_iff_exists.mp hc
  unfold findIK findIKRequest getDefaultIKRequest
  simp only [hg, hlink]
  split_ifs
  · unfold updateFromCache
    simp only [hcache]
    split_ifs
    · exact ⟨_, _, _, rfl⟩
    · exact ⟨_, _, _, rfl⟩
  · exact ⟨_, _, _, rfl⟩

/-- What one returning iteration of the solve loop does to the workspace and the
engine. -/
theorem findIKSolutionsBody_some {W K : Type} (ext : External W K) (visualize_workspace : Bool)
    (i : Nat) (workspace result : WorkspacePoints) (self engine : KinematicsReachability W K)
    (h : findIKSolutionsBody ext visualize_workspace i workspace self = some (result, engine)) :
    ∃ (point : WorkspacePoint) (code : MoveItErrorCodes) (solution : RobotState)
        (solved : KinematicsReachability W K),
      workspace.points[i]? = some point ∧
      findIK ext self workspace.group_name { pose := point.pose, header := workspace.header }
        {} {} = some (code, solution, solved) ∧
      result = { workspace with points := workspace.points.set i (solvedPoint point code solution) } ∧
      engine.kinematics_cache_.isSome = solved.kinematics_cache_.isSome ∧
      engine.use_cache_ = solved.use_cache_ ∧
      engine.cache_filename_ = solved.cache_filename_ := by
  unfold findIKSolutionsBody at h
  cases hp : workspace.points[i]? with
  | none => simp [hp] at h
  | some point =>
    simp only [hp] at h
    cases hf : findIK ext self workspace.group_name
        { pose := point.pose, header := workspace.header } {} {} with
    | none => simp [hf] at h
    | some val =>
      obtain ⟨code, solution, solved⟩ := val
      simp only [hf] at h
      refine ⟨point, code, solution, solved, rfl, hf, ?_⟩
      by_cases hs : code.val = MoveItErrorCodes.SUCCESS
      · simp only [hs, if_true] at h
        cases hc : solved.kinematics_cache_ with
        | none => simp [hc] at h
        | some cache =>
          simp only [hc, Option.some.injEq, Prod.mk.injEq] at h
          obtain ⟨h1, h2⟩ := h
          subst h1 h2
          simp [solvedPoint, hs]
      · simp only [hs, if_false, Option.some.injEq, Prod.mk.injEq] at h
        obtain ⟨h1, h2⟩ := h
        subst h1 h2
        simp [solvedPoint, hs]

theorem findIKSolutionsBody_isSome {W K : Type} (ext : External W K)
    (visualize_workspace : Bool) (i : Nat) (workspace : WorkspacePoints)
    (self : KinematicsReachability W K) (joint_model_group : JointModelGroup)
    (hg : ext.getJointModelGroup workspace.group_name = some joint_model_group)
    (hl : joint_model_group.link_model_names ≠ [])
    (hc : self.kinematics_cache_.isSome = true) (hi : i < workspace.points.length) :
    ∃ (result : WorkspacePoints) (engine : KinematicsReachability W K),
      findIKSolutionsBody ext visualize_workspace i workspace self = some (result, engine) := by
  obtain ⟨code, solution, solved, hf⟩ :=
    findIK_isSome ext self workspace.group_name
      { pose := workspace.points[i].pose, header := workspace.header } {} {}
      joint_model_group hg hl hc
  obtain ⟨hk, -, -, -⟩ := findIK_some_spec ext self solved _ _ _ _ _ _ hf
  obtain ⟨cache, hcache⟩ := Option.isSome_iff_exists.mp
    (show solved.kinematics_cache_.isSome = true by rw [hk]; exact hc)
  unfold findIKSolutionsBody
  simp only [List.getElem?_eq_getElem hi, hf, hcache]
  split_ifs
  · exact ⟨_, _, rfl⟩
  · exact ⟨_, _, rfl⟩

/-- Running `a + b` iterations is running `a` and then `b` iterations. -/
theorem findIKSolutionsLoop_split {W K : Type} (ext : External W K)
    (visualize_workspace : Bool) (a b : Nat) :
    ∀ (i : Nat) (workspace : WorkspacePoints) (self : KinematicsReachability W K),
      findIKSolutionsLoop ext visualize_workspace (a + b) i workspace self =
        match findIKSolutionsLoop ext visualize_workspace a i workspace self with
        | none => none
        | some (middle, engine) =>
          findIKSolutionsLoop ext visualize_workspace b (i + a) middle engine := by
  induction a with
  | zero =>
    intro i workspace self
    simp [findIKSolutionsLoop]
  | succ a ih =>
    intro i workspace self
    rw [show a + 1 + b = (a + b) + 1 by omega]
    simp only [findIKSolutionsLoop]
    cases hb : findIKSolutionsBody ext visualize_workspace i workspace self with
    | none => rfl
    | some val =>
      obtain ⟨next, engine⟩ := val
      simp only []
      by_cases hw : i + 1 < UINT_RANGE
      · simp only [hw, if_true, ih (i + 1) next engine]
        rw [show i + 1 + a = i + (a + 1) by omega]
      · simp only [hw, if_false]

/-- Iterations `i, …, i + remaining - 1` keep the header, the group, the number of
points and every point outside their index range. -/
theorem findIKSolutionsLoop_preserves {W K : Type} (ext : External W K)
    (visualize_workspace : Bool) (remaining : Nat) :
    ∀ (i : Nat) (workspace result : WorkspacePoints) (self engine : KinematicsReachability W K),
      findIKSolutionsLoop ext visualize_workspace remaining i workspace self
        = some (result, engine) →
      result.header = workspace.header ∧
      result.group_name = workspace.group_name ∧
      result.points.length = workspace.points.length ∧
      (∀ t : Nat, t < i ∨ i + remaining ≤ t → result.points[t]? = workspace.points[t]?) := by
  induction remaining with
  | zero =>
    intro i workspace result self engine h
    simp only [findIKSolutionsLoop, Option.some.injEq, Prod.mk.injEq] at h
    obtain ⟨h1, -⟩ := h
    subst h1
    exact ⟨rfl, rfl, rfl, fun _ _ => rfl⟩
  | succ remaining ih =>
    intro i workspace result self engine h
    simp only [findIKSolutionsLoop] at h
    cases hb : findIKSolutionsBody ext visualize_workspace i workspace self with
    | none => simp [hb] at h
    | some val =>
      obtain ⟨next, solved⟩ := val
      simp only [hb] at h
      by_cases hw : i + 1 < UINT_RANGE
      · simp only [hw, if_true] at h
        obtain ⟨point, code, solution, s0, -, -, hnext, -⟩ :=
          findIKSolutionsBody_some ext visualize_workspace i workspace next self solved hb
        obtain ⟨h1, h2, h3, h4⟩ := ih (i + 1) next result solved engine h
        subst hnext
        refine ⟨h1, h2, by simpa using h3, ?_⟩
        intro t ht
        rw [h4 t (by omega)]
        simp only [List.getElem?_set]
        rw [if_neg (by omega)]
      · simp only [hw, if_false] at h
        exact absurd h (by simp)

/-- Every point in the index range of the iterations ends with a classification
that `findIK` can produce. -/
theorem findIKSolutionsLoop_classified {W K : Type} (ext : External W K)
    (visualize_workspace : Bool) (remaining : Nat) :
    ∀ (i : Nat) (workspace result : WorkspacePoints) (self engine : KinematicsReachability W K),
      findIKSolutionsLoop ext visualize_workspace remaining i workspace self
        = some (result, engine) →
      ∀ t : Nat, i ≤ t → t < i + remaining →
        ∃ point : WorkspacePoint,
          result.points[t]? = some point ∧ Classified ext point.solution_code := by
  induction remaining with
  | zero =>
    intro i workspace result self engine _ t h1 h2
    omega
  | succ remaining ih =>
    intro i workspace result self engine h t h1 h2
    simp only [findIKSolutionsLoop] at h
    cases hb : findIKSolutionsBody ext visualize_workspace i workspace self with
    | none => simp [hb] at h
    | some val =>
      obtain ⟨next, solved⟩ := val
      simp only [hb] at h
      by_cases hw : i + 1 < UINT_RANGE
      · simp only [hw, if_true] at h
        by_cases hti : t = i
        · obtain ⟨point, code, solution, s0, hp, hf, hnext, -⟩ :=
            findIKSolutionsBody_some ext visualize_workspace i workspace next self solved hb
          obtain ⟨-, -, -, hcl⟩ := findIK_some_spec ext self s0 _ _ _ _ _ _ hf
          obtain ⟨-, -, -, h4⟩ :=
            findIKSolutionsLoop_preserves ext visualize_workspace remaining (i + 1) next result
              solved engine h
          have hlt : i < workspace.points.length := by
            rcases Nat.lt_or_ge i workspace.points.length with hlt | hge
            · exact hlt
            · rw [List.getElem?_eq_none hge] at hp
              exact absurd hp (by simp)
          refine ⟨solvedPoint point code solution, ?_, hcl⟩
          rw [hti, h4 i (Or.inl (by omega)), hnext]
          simp [List.getElem?_set, hlt]
        · exact ih (i + 1) next result solved engine h t (by omega) (by omega)
      · simp only [hw, if_false] at h
        exact absurd h (by simp)

/-- The solve loop completes for a known group, a held cache object and fewer than
`2 ^ 32` points. -/
theorem findIKSolutionsLoop_isSome {W K : Type} (ext : External W K)
    (visualize_workspace : Bool) (joint_model_group : JointModelGroup) (remaining : Nat) :
    ∀ (i : Nat) (workspace : WorkspacePoints) (self : KinematicsReachability W K),
      ext.getJointModelGroup workspace.group_name = some joint_model_group →
      joint_model_group.link_model_names ≠ [] →
      self.kinematics_cache_.isSome = true →
      i + remaining ≤ workspace.points.length →
      i + remaining < UINT_RANGE →
      ∃ (result : WorkspacePoints) (engine : KinematicsReachability W K),
        findIKSolutionsLoop ext visualize_workspace remaining i workspace self
          = some (result, engine) ∧
        engine.kinematics_cache_.isSome = true := by
  induction remaining with
  | zero =>
    intro i workspace self _ _ hc _ _
    exact ⟨workspace, self, rfl, hc⟩
  | succ remaining ih =>
    intro i workspace self hg hl hc hlen hw
    obtain ⟨next, solved, hb⟩ :=
      findIKSolutionsBody_isSome ext visualize_workspace i workspace self joint_model_group
        hg hl hc (by omega)
    obtain ⟨point, code, solution, s0, -, hf, hnext, hk, -, -⟩ :=
      findIKSolutionsBody_some ext visualize_workspace i workspace next self solved hb
    obtain ⟨hk0, -, -, -⟩ := findIK_some_spec ext self s0 _ _ _ _ _ _ hf
    have hc2 : solved.kinematics_cache_.isSome = true := by rw [hk, hk0]; exact hc
    have hg2 : ext.getJointModelGroup next.group_name = some joint_model_group := by
      rw [hnext]; exact hg
    have hlen2 : i + 1 + remaining ≤ next.points.length := by
      rw [hnext]; simp only [List.length_set]; omega
    obtain ⟨result, engine, hloop, hce⟩ :=
      ih (i + 1) next solved hg2 hl hc2 hlen2 (by omega)
    refine ⟨result, engine, ?_, hce⟩
    simp only [findIKSolutionsLoop, hb]
    rw [if_pos (by omega)]
    exact hloop

theorem findIKSolutions_some {W K : Type} (ext : External W K)
    (workspace result : WorkspacePoints) (visualize_workspace : Bool)
    (self engine : KinematicsReachability W K)
    (h : findIKSolutions ext workspace visualize_workspace self = some (result, engine)) :
    ∃ last : KinematicsReachability W K,
      findIKSolutionsLoop ext visualize_workspace workspace.points.length 0 workspace self
        = some (result, last) := by
  unfold findIKSolutions at h
  cases hl : findIKSolutionsLoop ext visualize_workspace workspace.points.length 0 workspace
      self with
  | none => simp [hl] at h
  | some val =>
    obtain ⟨r, last⟩ := val
    simp only [hl] at h
    cases hc : last.kinematics_cache_ with
    | none => simp [hc] at h
    | some cache =>
      simp only [hc, Option.some.injEq, Prod.mk.injEq] at h
      exact ⟨last, by rw [h.1]⟩

/-- Claim C5: for every `findIK` call that reaches the solver (cache inactive, or
cache active and `updateFromCache` supplied a seed), the classification
returned equals the error code of the solver's response to the request built
(seeded in the second case) and the configuration returned equals the
response's solution, both unmodified.  In a pass of `findIKSolutions` that
completes, the point at index `i` ends with exactly the classification `findIK`
returned for it in the `i`-th iteration. -/
theorem findIK_copies_solver_response {W K : Type} (ext : External W K)
    (self : KinematicsReachability W K) :
    (∀ (group_name : String) (pose_stamped : PoseStamped) (error_code : MoveItErrorCodes)
        (robot_state : RobotState) (request : Request) (built : KinematicsReachability W K),
      self.use_cache_ = false →
      findIKRequest ext self group_name pose_stamped = some (request, built) →
      findIK ext self group_name pose_stamped error_code robot_state =
        some ((ext.getIK built.world request).2.error_code,
          (ext.getIK built.world request).2.solution,
          { built with
            world := (ext.getIK built.world request).1
            calls := built.calls ++ [Call.getIK request] })) ∧
    (∀ (group_name : String) (pose_stamped : PoseStamped) (error_code : MoveItErrorCodes)
        (robot_state : RobotState) (request seeded : Request)
        (built looked : KinematicsReachability W K),
      self.use_cache_ = true →
      findIKRequest ext self group_name pose_stamped = some (request, built) →
      updateFromCache ext built request = some (true, seeded, looked) →
      findIK ext self group_name pose_stamped error_code robot_state =
        some ((ext.getIK looked.world seeded).2.error_code,
          (ext.getIK looked.world seeded).2.solution,
          { looked with
            world := (ext.getIK looked.world seeded).1
            calls := looked.calls ++ [Call.getIK seeded] })) ∧
    (∀ (workspace before final : WorkspacePoints) (visualize_workspace : Bool) (i : Nat)
        (point : WorkspacePoint) (code : MoveItErrorCodes) (solution : RobotState)
        (reached solved last : KinematicsReachability W K),
      findIKSolutionsLoop ext visualize_workspace i 0 workspace self = some (before, reached) →
      workspace.points[i]? = some point →
      findIK ext reached workspace.group_name
        { pose := point.pose, header := workspace.header } {} {} = some (code, solution, solved) →
      findIKSolutions ext workspace visualize_workspace self = some (final, last) →
      ∃ stored : WorkspacePoint,
        final.points[i]? = some stored ∧ stored.solution_code = code ∧
        stored.pose = point.pose) := by
  refine ⟨?_, ?_, ?_⟩
  · intro group_name pose_stamped error_code robot_state request built huse hreq
    exact findIK_uncached_eq ext self built group_name pose_stamped error_code robot_state
      request huse hreq
  · intro group_name pose_stamped error_code robot_state request seeded built looked huse hreq
      hseed
    exact findIK_seeded_eq ext self built looked group_name pose_stamped error_code robot_state
      request seeded huse hreq hseed
  · intro workspace before final visualize_workspace i point code solution reached solved last
      hbefore hpoint hfind hfinal
    obtain ⟨last2, hloop⟩ :=
      findIKSolutions_some ext workspace final visualize_workspace self last hfinal
    have hlt : i < workspace.points.length := by
      rcases Nat.lt_or_ge i workspace.points.length with hlt | hge
      · exact hlt
      · rw [List.getElem?_eq_none hge] at hpoint
        exact absurd hpoint (by simp)
    obtain ⟨rest, hrest⟩ : ∃ rest, workspace.points.length = i + (rest + 1) :=
      ⟨workspace.points.length - i - 1, by omega⟩
    rw [hrest, findIKSolutionsLoop_split ext visualize_workspace i (rest + 1) 0 workspace self,
      hbefore] at hloop
    simp only [Nat.zero_add, findIKSolutionsLoop] at hloop
    obtain ⟨hh, hgn, -, hkeep⟩ :=
      findIKSolutionsLoop_preserves ext visualize_workspace i 0 workspace before self reached
        hbefore
    cases hb : findIKSolutionsBody ext visualize_workspace i before reached with
    | none => simp [hb] at hloop
    | some val =>
      obtain ⟨next, engine⟩ := val
      simp only [hb] at hloop
      by_cases hw : i + 1 < UINT_RANGE
      · simp only [hw, if_true] at hloop
        obtain ⟨point2, code2, solution2, s0, hp2, hf2, hnext, -⟩ :=
          findIKSolutionsBody_some ext visualize_workspace i before next reached engine hb
        rw [hkeep i (Or.inr (by omega)), hpoint] at hp2
        cases hp2
        rw [hh, hgn, hfind] at hf2
        simp only [Option.some.injEq, Prod.mk.injEq] at hf2
        obtain ⟨hc, hs, -⟩ := hf2
        obtain ⟨-, -, -, hkeep2⟩ :=
          findIKSolutionsLoop_preserves ext visualize_workspace rest (i + 1) next final engine
            last2 hloop
        have hlt2 : i < before.points.length := by
          rcases Nat.lt_or_ge i before.points.length with h | h
          · exact h
          · have := hkeep i (Or.inr (by omega))
            rw [List.getElem?_eq_none h, hpoint] at this
            exact absurd this (by simp)
        refine ⟨solvedPoint point code solution, ?_, rfl, rfl⟩
        rw [hkeep2 i (Or.inl (by omega)), hnext, ← hc, ← hs]
        simp [List.getElem?_set, hlt2]
      · simp only [hw, if_false] at hloop
        exact absurd hloop (by simp)

/-- Witness of C5: with the cache inactive and a solver answering `SUCCESS`, `findIK`
returns the solver's code and joint values, and the pass stores the code in the
point at index 1. -/
theorem findIK_copies_solver_response_witness :
    (∃ engine : KinematicsReachability Unit Unit,
      findIK (scenarioExternal 1) uncachedEngine "arm"
          { pose := { position := { x := 1 / 2 }, orientation := { w := 1 } } } {} {} =
        some ({ val := 1 }, { joint_state := { name := ["j"], position := [1] } }, engine)) ∧
    ∃ (final : WorkspacePoints) (last : KinematicsReachability Unit Unit)
        (stored : WorkspacePoint),
      findIKSolutions (scenarioExternal 1) sampledArmWorkspace false uncachedEngine
        = some (final, last) ∧
      final.points[1]? = some stored ∧ stored.solution_code = { val := 1 } := by
  constructor
  · exact ⟨_, (findIK_copies_solver_response (scenarioExternal 1) uncachedEngine).1 "arm"
      { pose := { position := { x := 1 / 2 }, orientation := { w := 1 } } } {} {} _ _ rfl rfl⟩
  · obtain ⟨stored, h1, h2, -⟩ :=
      (findIK_copies_solver_response (scenarioExternal 1) uncachedEngine).2.2
        sampledArmWorkspace _ _ false 1 _ _ _ _ _ _ rfl rfl rfl rfl
    exact ⟨_, _, stored, rfl, h1, h2⟩

/-- Claim C9, as amended: a solve pass over a workspace of fewer than `2 ^ 32` points,
for a group known to the kinematic model and with a cache object held by the
engine, completes for every behaviour of the solver and the cache and keeps the
number of points; afterwards every point's `solution_code` is either
`PLANNING_FAILED` or the error code of a response of the solver, copied
unchanged.  Hence every point is in `SUCCESS`, `NO_IK_SOLUTION`,
`PLANNING_FAILED` whenever the solver itself only answers with these three. -/
theorem findIKSolutions_classifies_every_point {W K : Type} (ext : External W K)
    (self : KinematicsReachability W K) (workspace : WorkspacePoints)
    (visualize_workspace : Bool) (joint_model_group : JointModelGroup)
    (hg : ext.getJointModelGroup workspace.group_name = some joint_model_group)
    (hl : joint_model_group.link_model_names ≠ [])
    (hc : self.kinematics_cache_.isSome = true)
    (hlen : workspace.points.length < UINT_RANGE) :
    ∃ (result : WorkspacePoints) (engine : KinematicsReachability W K),
      findIKSolutions ext workspace visualize_workspace self = some (result, engine) ∧
      result.points.length = workspace.points.length ∧
      (∀ point ∈ result.points,
        point.solution_code.val = MoveItErrorCodes.PLANNING_FAILED ∨
        ∃ (w : W) (request : Request),
          point.solution_code = (ext.getIK w request).2.error_code) ∧
      ((∀ (w : W) (request : Request),
          (ext.getIK w request).2.error_code.val = MoveItErrorCodes.SUCCESS ∨
          (ext.getIK w request).2.error_code.val = MoveItErrorCodes.NO_IK_SOLUTION ∨
          (ext.getIK w request).2.error_code.val = MoveItErrorCodes.PLANNING_FAILED) →
        ∀ point ∈ result.points,
          point.solution_code.val = MoveItErrorCodes.SUCCESS ∨
          point.solution_code.val = MoveItErrorCodes.NO_IK_SOLUTION ∨
          point.solution_code.val = MoveItErrorCodes.PLANNING_FAILED) := by
  obtain ⟨result, last, hloop, hce⟩ :=
    findIKSolutionsLoop_isSome ext visualize_workspace joint_model_group
      workspace.points.length 0 workspace self hg hl hc (by omega) (by omega)
  obtain ⟨cache, hcache⟩ := Option.isSome_iff_exists.mp hce
  obtain ⟨-, -, hsame, -⟩ :=
    findIKSolutionsLoop_preserves ext visualize_workspace _ 0 workspace result self last hloop
  have hall : ∀ point ∈ result.points, Classified ext point.solution_code := by
    intro point hmem
    obtain ⟨t, ht, hget⟩ := List.mem_iff_getElem.mp hmem
    obtain ⟨stored, hs, hcl⟩ :=
      findIKSolutionsLoop_classified ext visualize_workspace _ 0 workspace result self last
        hloop t (by omega) (by omega)
    rw [List.getElem?_eq_getElem ht, hget] at hs
    cases hs
    exact hcl
  refine ⟨result,
    { last with calls := last.calls ++ [Call.writeToFile last.cache_filename_] },
    ?_, hsame, hall, ?_⟩
  · unfold findIKSolutions
    simp only [hloop, hcache]
  · intro hsolver point hmem
    rcases hall point hmem with hp | ⟨w, request, hp⟩
    · exact Or.inr (Or.inr hp)
    · rw [hp]
      exact hsolver w request

/-- Witness of C9 (amended): active cache, solver answering `NO_IK_SOLUTION`. -/
theorem findIKSolutions_classifies_every_point_witness :
    ∃ engine : KinematicsReachability Unit Unit,
      findIKSolutions (scenarioExternal (-31)) sampledArmWorkspace false cachedEngine
        = some (solvedArmWorkspace (-31) [] [], engine) ∧
      ∀ point ∈ (solvedArmWorkspace (-31) [] []).points,
        point.solution_code.val = MoveItErrorCodes.SUCCESS ∨
        point.solution_code.val = MoveItErrorCodes.NO_IK_SOLUTION ∨
        point.solution_code.val = MoveItErrorCodes.PLANNING_FAILED := by
  obtain ⟨result, engine, h1, -, -, h4⟩ :=
    findIKSolutions_classifies_every_point (scenarioExternal (-31)) cachedEngine
      sampledArmWorkspace false { link_model_names := ["tip"], joint_model_names := ["j"] }
      rfl (by simp) rfl (by simp [sampledArmWorkspace, UINT_RANGE])
  have h5 : (findIKSolutions (scenarioExternal (-31)) sampledArmWorkspace false
      cachedEngine).map (fun r => r.1) = some (solvedArmWorkspace (-31) [] []) := by
    decide!
  rw [h1] at h5
  simp only [Option.map_some', Option.some.injEq] at h5
  subst h5
  exact ⟨engine, h1, h4 (fun _ _ => Or.inr (Or.inl rfl))⟩

/-- Counterexample to C9 as stated: when the solver answers a request with another
code of `MoveItErrorCodes` (here `-6`), `computeWorkspace` returns true and every
point carries that code, which is none of `SUCCESS`, `NO_IK_SOLUTION`,
`PLANNING_FAILED`. -/
theorem solve_pass_classification_counterexample :
    (∃ engine : KinematicsReachability Unit Unit,
      computeWorkspace (scenarioExternal (-6)) freshEngine armWorkspace false
        = some (true, solvedArmWorkspace (-6) [] [], engine)) ∧
    ∀ point ∈ (solvedArmWorkspace (-6) [] []).points,
      point.solution_code.val ≠ MoveItErrorCodes.SUCCESS ∧
      point.solution_code.val ≠ MoveItErrorCodes.NO_IK_SOLUTION ∧
      point.solution_code.val ≠ MoveItErrorCodes.PLANNING_FAILED := by
  have h5 : (computeWorkspace (scenarioExternal (-6)) freshEngine armWorkspace false).map
      (fun r => (r.1, r.2.1)) = some (true, solvedArmWorkspace (-6) [] []) := by
    decide!
  constructor
  · cases hx : computeWorkspace (scenarioExternal (-6)) freshEngine armWorkspace false with
    | none =>
      rw [hx] at h5
      exact absurd h5 (by simp)
    | some val =>
      obtain ⟨ok, result, engine⟩ := val
      rw [hx] at h5
      simp only [Option.map_some', Option.some.injEq, Prod.mk.injEq] at h5
      exact ⟨engine, by rw [h5.1, h5.2]⟩
  · intro point hmem
    simp only [solvedArmWorkspace, List.mem_cons, List.mem_singleton, List.not_mem_nil,
      or_false] at hmem
    rcases hmem with h | h | h <;> (rw [h]; decide)

/-! ## Per-axis counts and idempotent compaction -/

/-- Claim C13, as amended: for every bounding region and every resolution `r > 0`,
the per-axis counts computed by `getNumPoints` and iterated by `sampleUniform`
are `⌊dx/r⌋ + 1`, `⌊dy/r⌋ + 1`, `⌊dz/r⌋ + 1` (each below `2 ^ 32`): the quotient
is truncated, not rounded up.  Such a count equals `⌈d/r⌉ + 1` exactly when `d/r`
is a whole number. -/
theorem getNumPoints_floor_counts (workspace : WorkspacePoints)
    (hr : 0 < workspace.position_resolution)
    (ho : workspace.orientations ≠ [])
    (hx : ⌊|workspace.parameters.min_corner.x - workspace.parameters.max_corner.x|
      / workspace.position_resolution⌋₊ + 1 < UINT_RANGE)
    (hy : ⌊|workspace.parameters.min_corner.y - workspace.parameters.max_corner.y|
      / workspace.position_resolution⌋₊ + 1 < UINT_RANGE)
    (hz : ⌊|workspace.parameters.min_corner.z - workspace.parameters.max_corner.z|
      / workspace.position_resolution⌋₊ + 1 < UINT_RANGE) :
    getNumPoints workspace =
      some (⌊|workspace.parameters.min_corner.x - workspace.parameters.max_corner.x|
              / workspace.position_resolution⌋₊ + 1,
            ⌊|workspace.parameters.min_corner.y - workspace.parameters.max_corner.y|
              / workspace.position_resolution⌋₊ + 1,
            ⌊|workspace.parameters.min_corner.z - workspace.parameters.max_corner.z|
              / workspace.position_resolution⌋₊ + 1) ∧
    sampleUniform workspace =
      some (true,
        { workspace with
          ordered := true
          points := workspace.points ++
            gridPoints workspace
              (⌊|workspace.parameters.min_corner.x - workspace.parameters.max_corner.x|
                / workspace.position_resolution⌋₊ + 1)
              (⌊|workspace.parameters.min_corner.y - workspace.parameters.max_corner.y|
                / workspace.position_resolution⌋₊ + 1)
              (⌊|workspace.parameters.min_corner.z - workspace.parameters.max_corner.z|
                / workspace.position_resolution⌋₊ + 1)
              (workspace.orientations.length % UINT_RANGE) }) ∧
    (∀ d : ℚ, 0 ≤ d →
      (⌊d / workspace.position_resolution⌋₊ + 1 = ⌈d / workspace.position_resolution⌉₊ + 1 ↔
        ((⌊d / workspace.position_resolution⌋₊ : ℕ) : ℚ) = d / workspace.position_resolution)) := by
  have hn := getNumPoints_of_pos workspace hr hx hy hz
  refine ⟨hn, sampleUniform_eq workspace _ _ _ ho hn, ?_⟩
  intro d hd
  have hq : 0 ≤ d / workspace.position_resolution := div_nonneg hd hr.le
  constructor
  · intro h
    have h1 : ⌈d / workspace.position_resolution⌉₊ = ⌊d / workspace.position_resolution⌋₊ := by
      omega
    apply le_antisymm (Nat.floor_le hq)
    calc d / workspace.position_resolution
        ≤ ((⌈d / workspace.position_resolution⌉₊ : ℕ) : ℚ) := Nat.le_ceil _
      _ = ((⌊d / workspace.position_resolution⌋₊ : ℕ) : ℚ) := by rw [h1]
  · intro h
    rw [← h, Nat.ceil_natCast, Nat.floor_natCast]

/-- Witness of C13 (amended): the scenario of the specification has three points
along x. -/
theorem getNumPoints_floor_counts_witness :
    getNumPoints scenarioWorkspace = some (3, 1, 1) := by
  have h := (getNumPoints_floor_counts scenarioWorkspace
    (by norm_num [scenarioWorkspace]) (by simp [scenarioWorkspace])
    (by norm_num [scenarioWorkspace, UINT_RANGE])
    (by norm_num [scenarioWorkspace, UINT_RANGE])
    (by norm_num [scenarioWorkspace, UINT_RANGE])).1
  rw [h]
  norm_num [scenarioWorkspace]

/-- Counterexample to C13 as stated: with extent 1 and resolution `0.4` the quotient
is `2.5`; `getNumPoints` yields three points along x, where `⌈2.5⌉ + 1` is four. -/
theorem getNumPoints_ceil_counterexample :
    0 < fractionalWorkspace.position_resolution ∧
    getNumPoints fractionalWorkspace = some (3, 1, 1) ∧
    ⌈|fractionalWorkspace.parameters.min_corner.x - fractionalWorkspace.parameters.max_corner.x|
      / fractionalWorkspace.position_resolution⌉₊ + 1 = 4 := by
  refine ⟨by norm_num [fractionalWorkspace], ?_, ?_⟩
  · norm_num [getNumPoints, quotientToUnsignedInt, toUnsignedInt, UINT_RANGE,
      fractionalWorkspace]
    rfl
  · have h : ⌈|fractionalWorkspace.parameters.min_corner.x
        - fractionalWorkspace.parameters.max_corner.x|
        / fractionalWorkspace.position_resolution⌉₊ = 3 := by
      rw [Nat.ceil_eq_iff (by norm_num)]
      norm_num [fractionalWorkspace]
    rw [h]

/-- The compaction replaces the point list by its reachable points. -/
theorem removeUnreachableWorkspace_points (workspace : WorkspacePoints) :
    removeUnreachableWorkspace workspace =
      { workspace with points := reachablePoints workspace.points } := by
  unfold removeUnreachableWorkspace
  rw [removeUnreachableLoop_eq workspace.points.length 0 workspace.points 0 (by omega)]
  simp

/-- Claim C15: for every workspace, `removeUnreachableWorkspace` is idempotent and
never increases the point count: applying it twice yields the same workspace as
applying it once, and the number of points after one application is at most the
number before. -/
theorem removeUnreachableWorkspace_idempotent (workspace : WorkspacePoints) :
    removeUnreachableWorkspace (removeUnreachableWorkspace workspace)
      = removeUnreachableWorkspace workspace ∧
    (removeUnreachableWorkspace workspace).points.length ≤ workspace.points.length := by
  rw [removeUnreachableWorkspace_points workspace,
    removeUnreachableWorkspace_points { workspace with points := reachablePoints workspace.points }]
  constructor
  · simp [reachablePoints, List.filter_filter]
  · exact List.length_filter_le _ _

/-! ## Cache envelope policy -/

/-- Outside the envelope (`distance² ≥ max²`) the bridge answers false and touches
nothing but the call log. -/
theorem updateFromCache_of_ge {W K : Type} (ext : External W K)
    (self : KinematicsReachability W K) (cache : K) (request : Request)
    (hc : self.kinematics_cache_ = some cache)
    (h : request.ik_request.pose_stamped.pose.position.x
          * request.ik_request.pose_stamped.pose.position.x
        + request.ik_request.pose_stamped.pose.position.y
          * request.ik_request.pose_stamped.pose.position.y
        + request.ik_request.pose_stamped.pose.position.z
          * request.ik_request.pose_stamped.pose.position.z
        ≥ (ext.getMinMaxSquaredDistance cache).2) :
    updateFromCache ext self request =
      some (false, request,
        { self with calls := self.calls ++ [Call.getMinMaxSquaredDistance] }) := by
  unfold updateFromCache
  simp only [hc]
  rw [if_pos h]

/-- The rejection path of `findIK`: cache active and the tool-corrected target at or
beyond the envelope of the cache. -/
theorem findIK_of_out_of_range {W K : Type} (ext : External W K)
    (self built : KinematicsReachability W K) (cache : K) (group_name : String)
    (pose_stamped : PoseStamped) (error_code : MoveItErrorCodes) (robot_state : RobotState)
    (request : Request)
    (huse : self.use_cache_ = true)
    (hc : self.kinematics_cache_ = some cache)
    (hreq : findIKRequest ext self group_name pose_stamped = some (request, built))
    (hd : (toolCorrectedPose self pose_stamped.pose).origin.x
          * (toolCorrectedPose self pose_stamped.pose).origin.x
        + (toolCorrectedPose self pose_stamped.pose).origin.y
          * (toolCorrectedPose self pose_stamped.pose).origin.y
        + (toolCorrectedPose self pose_stamped.pose).origin.z
          * (toolCorrectedPose self pose_stamped.pose).origin.z
        ≥ (ext.getMinMaxSquaredDistance cache).2) :
    findIK ext self group_name pose_stamped error_code robot_state =
      some ({ val := MoveItErrorCodes.PLANNING_FAILED }, robot_state,
        { built with calls := self.calls ++ [Call.getMinMaxSquaredDistance] }) := by
  obtain ⟨⟨w, hw⟩, hpose⟩ :=
    findIKRequest_engine ext self built group_name pose_stamped request hreq
  have huse1 : built.use_cache_ = true := by rw [hw]; exact huse
  have hc1 : built.kinematics_cache_ = some cache := by rw [hw]; exact hc
  have hcalls : built.calls = self.calls := by rw [hw]
  have hmiss := updateFromCache_of_ge ext built cache request hc1
    (by rw [hpose]; exact hd)
  unfold findIK
  simp only [hreq, huse1, if_true, hmiss, hcalls]

/-- Claim C14, as amended: for every query made while the cache is active whose
tool-corrected target lies at or beyond the cache's recorded maximum squared
distance, the overall query is failed on purpose: `findIK` classifies it
`PLANNING_FAILED`, returns the caller's `robot_state` untouched, makes the single
collaborator call `getMinMaxSquaredDistance`, and does not invoke the solver. -/
theorem findIK_beyond_cache_range_rejected {W K : Type} (ext : External W K)
    (self built : KinematicsReachability W K) (cache : K) (group_name : String)
    (pose_stamped : PoseStamped) (error_code : MoveItErrorCodes) (robot_state : RobotState)
    (request : Request)
    (huse : self.use_cache_ = true)
    (hc : self.kinematics_cache_ = some cache)
    (hreq : findIKRequest ext self group_name pose_stamped = some (request, built))
    (hd : (toolCorrectedPose self pose_stamped.pose).origin.x
          * (toolCorrectedPose self pose_stamped.pose).origin.x
        + (toolCorrectedPose self pose_stamped.pose).origin.y
          * (toolCorrectedPose self pose_stamped.pose).origin.y
        + (toolCorrectedPose self pose_stamped.pose).origin.z
          * (toolCorrectedPose self pose_stamped.pose).origin.z
        ≥ (ext.getMinMaxSquaredDistance cache).2) :
    ∃ engine : KinematicsReachability W K,
      findIK ext self group_name pose_stamped error_code robot_state =
        some ({ val := MoveItErrorCodes.PLANNING_FAILED }, robot_state, engine) ∧
      engine.calls = self.calls ++ [Call.getMinMaxSquaredDistance] ∧
      (∀ solver_request : Request,
        Call.getIK solver_request ∉ engine.calls.drop self.calls.length) ∧
      engine.world = built.world := by
  refine ⟨_, findIK_of_out_of_range ext self built cache group_name pose_stamped error_code
    robot_state request huse hc hreq hd, rfl, ?_, rfl⟩
  intro solver_request
  simp

/-- The request built by `findIK` in the scenario. -/
theorem findIKRequest_scenario (code : Int) (x : ℚ) :
    findIKRequest (scenarioExternal code) cachedEngine "arm" (targetAt x)
      = some (armRequestAt x, cachedEngine) := by
  simp [findIKRequest, targetAt, Matrix3x3.setRotation, Matrix3x3.mul, Matrix3x3.transpose,
    getDefaultIKRequest, scenarioExternal, cachedEngine, toolCorrectedPose,
    poseTFToMsg, poseMsgToTF, Transform.mul, Transform.identity, Matrix3x3.mulVec,
    Vector3.add, Vector3.dot, Matrix3x3.identity, armRequestAt]

/-- The tool-corrected target of the scenario is the target itself. -/
theorem toolCorrectedPose_scenario (x : ℚ) :
    (toolCorrectedPose cachedEngine (targetAt x).pose).origin = { x := x } := by
  simp [cachedEngine, targetAt, Matrix3x3.setRotation, Matrix3x3.mul, Matrix3x3.transpose,
    toolCorrectedPose, poseMsgToTF, Transform.mul, Transform.identity,
    Matrix3x3.mulVec, Vector3.add, Vector3.dot, Matrix3x3.identity]

/-- Witness of C14 (amended): active cache with `max² = 4`, target at squared
distance 9. -/
theorem findIK_beyond_cache_range_rejected_witness :
    ∃ engine : KinematicsReachability Unit Unit,
      findIK (scenarioExternal 1) cachedEngine "arm" (targetAt 3)
          {} {} = some ({ val := MoveItErrorCodes.PLANNING_FAILED }, {}, engine) ∧
      engine.calls = [Call.getMinMaxSquaredDistance] := by
  obtain ⟨engine, h1, h2, -, -⟩ :=
    findIK_beyond_cache_range_rejected (scenarioExternal 1) cachedEngine cachedEngine ()
      "arm" (targetAt 3) {} {} (armRequestAt 3) rfl rfl
      (findIKRequest_scenario 1 3)
      (by rw [toolCorrectedPose_scenario]; norm_num [scenarioExternal])
  exact ⟨engine, h1, h2⟩

/-- Counterexample to C14 as stated: the cache is active with `max² = 4`, the target
lies at squared distance 9, and the solver would answer `SUCCESS` to any request;
`findIK` nevertheless fails the query with `PLANNING_FAILED` and the solver is
never called. -/
theorem findIK_fallthrough_counterexample :
    findIK (scenarioExternal 1) cachedEngine "arm" (targetAt 3)
        {} {} =
      some ({ val := MoveItErrorCodes.PLANNING_FAILED }, {},
        { cachedEngine with calls := [Call.getMinMaxSquaredDistance] }) ∧
    (∀ (w : Unit) (request : Request),
      ((scenarioExternal 1).getIK w request).2.error_code.val = MoveItErrorCodes.SUCCESS) ∧
    MoveItErrorCodes.PLANNING_FAILED ≠ MoveItErrorCodes.SUCCESS := by
  refine ⟨?_, fun _ _ => rfl, by decide⟩
  exact findIK_of_out_of_range (scenarioExternal 1) cachedEngine cachedEngine ()
    "arm" (targetAt 3) {} {} (armRequestAt 3) rfl rfl
    (findIKRequest_scenario 1 3)
    (by rw [toolCorrectedPose_scenario]; norm_num [scenarioExternal])

/-- Claim C17, as amended: for every request whose pose position has a squared
distance from the origin strictly below the cache's `max²`, `updateFromCache`
returns true and replaces the seed joint positions of the request with the
configuration the cache returns for `getSolution (pose, 0)`, leaving the pose, the
link name, the timeout and the seed's joint names unchanged. -/
theorem updateFromCache_seeds_below_max {W K : Type} (ext : External W K)
    (self : KinematicsReachability W K) (cache : K) (request : Request)
    (hc : self.kinematics_cache_ = some cache)
    (h : request.ik_request.pose_stamped.pose.position.x
          * request.ik_request.pose_stamped.pose.position.x
        + request.ik_request.pose_stamped.pose.position.y
          * request.ik_request.pose_stamped.pose.position.y
        + request.ik_request.pose_stamped.pose.position.z
          * request.ik_request.pose_stamped.pose.position.z
        < (ext.getMinMaxSquaredDistance cache).2) :
    ∃ (seeded : Request) (engine : KinematicsReachability W K),
      updateFromCache ext self request = some (true, seeded, engine) ∧
      seeded.ik_request.ik_seed_state.joint_state.position =
        (ext.getSolution cache request.ik_request.pose_stamped.pose 0
          request.ik_request.ik_seed_state.joint_state.position).2 ∧
      seeded.ik_request.ik_seed_state.joint_state.name =
        request.ik_request.ik_seed_state.joint_state.name ∧
      seeded.ik_request.pose_stamped = request.ik_request.pose_stamped ∧
      seeded.ik_request.ik_link_name = request.ik_request.ik_link_name ∧
      seeded.timeout = request.timeout ∧
      engine.calls = self.calls ++
        [Call.getMinMaxSquaredDistance,
         Call.getSolution request.ik_request.pose_stamped.pose 0] := by
  unfold updateFromCache
  simp only [hc]
  rw [if_neg (not_le.mpr h)]
  exact ⟨_, _, rfl, rfl, rfl, rfl, rfl, rfl, by simp⟩

/-- Witness of C17 (amended): `max² = 4`, squared distance `2.25`; the seed `[0]`
becomes the cached configuration `[7]`. -/
theorem updateFromCache_seeds_below_max_witness :
    ∃ (seeded : Request) (engine : KinematicsReachability Unit Unit),
      updateFromCache (scenarioExternal 1) cachedEngine (armRequestAt (3 / 2))
        = some (true, seeded, engine) ∧
      seeded.ik_request.ik_seed_state.joint_state.position = [7] := by
  obtain ⟨seeded, engine, h1, h2, -⟩ :=
    updateFromCache_seeds_below_max (scenarioExternal 1) cachedEngine ()
      (armRequestAt (3 / 2)) rfl (by norm_num [armRequestAt, scenarioExternal])
  exact ⟨seeded, engine, h1, h2⟩

/-- Counterexample to C17 as stated: with `max² = 4` and a request at squared
distance exactly 4 (not exceeding `max²`), `updateFromCache` returns false and
leaves the seed `[0]` in place. -/
theorem updateFromCache_boundary_counterexample :
    (armRequestAt 2).ik_request.pose_stamped.pose.position.x
          * (armRequestAt 2).ik_request.pose_stamped.pose.position.x
        + (armRequestAt 2).ik_request.pose_stamped.pose.position.y
          * (armRequestAt 2).ik_request.pose_stamped.pose.position.y
        + (armRequestAt 2).ik_request.pose_stamped.pose.position.z
          * (armRequestAt 2).ik_request.pose_stamped.pose.position.z
      ≤ ((scenarioExternal 1).getMinMaxSquaredDistance ()).2 ∧
    updateFromCache (scenarioExternal 1) cachedEngine (armRequestAt 2) =
      some (false, armRequestAt 2,
        { cachedEngine with calls := [Call.getMinMaxSquaredDistance] }) :=
  ⟨by norm_num [armRequestAt, scenarioExternal],
   updateFromCache_of_ge (scenarioExternal 1) cachedEngine () (armRequestAt 2) rfl
     (by norm_num [armRequestAt, scenarioExternal])⟩

/-! ## Position index -/

/-- Once the scan of `getPositionIndex` has read beyond the points, no later
iteration brings a result back. -/
theorem forLoop_option_none {σ : Type} (body : Nat → Option σ → Option σ) (start : Nat)
    (init : Option σ) (hnone : ∀ i, body i none = none)
    (hstart : ∀ state, body start state = none) :
    ∀ n, start < n → forLoop n body init = none := by
  have hsucc : ∀ n, forLoop (n + 1) body init = body n (forLoop n body init) := by
    intro n
    simp [forLoop, List.range_succ, List.foldl_append]
  intro n hn
  induction n with
  | zero => omega
  | succ n ih =>
    rw [hsucc]
    by_cases h : start = n
    · rw [← h]; exact hstart _
    · rw [ih (by omega)]; exact hnone n

/-- Whenever the count computed from `getNumPoints` and the orientation list exceeds
the number of points, the scan of `getPositionIndex` reads `points[points.size ()]`
and has no defined result. -/
theorem getPositionIndex_reads_beyond_points (workspace : WorkspacePoints)
    (reachable_workspace unreachable_workspace : List Nat) (nx ny nz : Nat)
    (hn : getNumPoints workspace = some (nx, ny, nz))
    (hlt : workspace.points.length <
      ((((nx * ny) % UINT_RANGE * nz) % UINT_RANGE * workspace.orientations.length)
        % SIZE_RANGE) % UINT_RANGE) :
    getPositionIndex workspace reachable_workspace unreachable_workspace = none := by
  unfold getPositionIndex
  simp only [hn]
  apply forLoop_option_none _ workspace.points.length _ _ _ _ hlt
  · intro i
    rfl
  · intro state
    rw [List.getElem?_eq_none (le_refl _)]
    cases state <;> rfl

/-- Claim C16, evaluated where the code departs from it.  After
`removeUnreachableWorkspace` the workspace `mixedArmWorkspace` has two points, yet
`getPositionIndex` still scans the three indices of the sampled grid and reads
`points[2]`, so neither it nor `getDisplayTrajectory` has a defined result.  On a
point list longer than the grid (four points, grid of three) the scan stops at
the grid size and index 3 is put in neither list. -/
theorem getPositionIndex_scans_grid_size :
    (removeUnreachableWorkspace mixedArmWorkspace).points.length = 2 ∧
    getPositionIndex (removeUnreachableWorkspace mixedArmWorkspace) [] [] = none ∧
    getDisplayTrajectory (removeUnreachableWorkspace mixedArmWorkspace) {} = none ∧
    oversizedArmWorkspace.points.length = 4 ∧
    getPositionIndex oversizedArmWorkspace [] [] = some ([0, 2], [1]) := by
  refine ⟨by decide!, ?_, by decide!, by decide!, by decide!⟩
  exact getPositionIndex_reads_beyond_points _ [] [] 3 1 1 (by decide!) (by decide!)

/-! ## Cache build failure -/

/-- With no cache object and no solver for the group, `generateCache` returns false
and leaves the engine as it was. -/
theorem generateCache_of_no_solver {W K : Type} (ext : External W K)
    (self : KinematicsReachability W K) (group_name : String) (timeout : ℚ)
    (options : Options) (cache_filename : String)
    (hc : self.kinematics_cache_ = none)
    (hs : ext.hasKinematicsSolver self.world group_name = false) :
    generateCache ext self group_name timeout options cache_filename = some (false, self) := by
  unfold generateCache
  simp [hc, hs]

/-- The solve loop never creates a cache object. -/
theorem findIKSolutionsLoop_cache_none {W K : Type} (ext : External W K)
    (visualize_workspace : Bool) (remaining : Nat) :
    ∀ (i : Nat) (workspace result : WorkspacePoints) (self engine : KinematicsReachability W K),
      findIKSolutionsLoop ext visualize_workspace remaining i workspace self
        = some (result, engine) →
      self.kinematics_cache_ = none → engine.kinematics_cache_ = none := by
  induction remaining with
  | zero =>
    intro i workspace result self engine h hc
    simp only [findIKSolutionsLoop, Option.some.injEq, Prod.mk.injEq] at h
    rw [← h.2]; exact hc
  | succ remaining ih =>
    intro i workspace result self engine h hc
    simp only [findIKSolutionsLoop] at h
    cases hb : findIKSolutionsBody ext visualize_workspace i workspace self with
    | none => simp [hb] at h
    | some val =>
      obtain ⟨next, solved⟩ := val
      simp only [hb] at h
      by_cases hw : i + 1 < UINT_RANGE
      · simp only [hw, if_true] at h
        obtain ⟨point, code, solution, s0, -, hf, -, hk, -, -⟩ :=
          findIKSolutionsBody_some ext visualize_workspace i workspace next self solved hb
        obtain ⟨hk0, -, -, -⟩ := findIK_some_spec ext self s0 _ _ _ _ _ _ hf
        have hnone : solved.kinematics_cache_ = none := by
          rw [hk0, hc] at hk
          cases hs : solved.kinematics_cache_ with
          | none => rfl
          | some c => rw [hs] at hk; simp at hk
        exact ih (i + 1) next result solved engine h hnone
      · simp only [hw, if_false] at h
        exact absurd h (by simp)

/-- Without a cache object the solve pass has no defined result: it dereferences the
empty handle in `addToCache` or, at the latest, in `writeToFile`. -/
theorem findIKSolutions_of_absent_cache {W K : Type} (ext : External W K)
    (workspace : WorkspacePoints) (visualize_workspace : Bool)
    (self : KinematicsReachability W K) (hc : self.kinematics_cache_ = none) :
    findIKSolutions ext workspace visualize_workspace self = none := by
  unfold findIKSolutions
  cases hl : findIKSolutionsLoop ext visualize_workspace workspace.points.length 0 workspace
      self with
  | none => rfl
  | some val =>
    obtain ⟨result, last⟩ := val
    have hnone :=
      findIKSolutionsLoop_cache_none ext visualize_workspace _ 0 workspace result self last hl hc
    simp only [hnone]

/-- A first `computeWorkspace` call for a group without a kinematics solver, on an
engine that holds no cache object, never returns when the orientation list is
not empty. -/
theorem computeWorkspace_of_absent_cache {W K : Type} (ext : External W K)
    (self : KinematicsReachability W K) (workspace : WorkspacePoints) (visualize : Bool)
    (hf : self.first_time_ = true) (hc : self.kinematics_cache_ = none)
    (hs : ext.hasKinematicsSolver self.world workspace.group_name = false)
    (ho : workspace.orientations ≠ []) :
    computeWorkspace ext self workspace visualize = none := by
  have he : workspace.orientations.isEmpty = false := by
    cases h : workspace.orientations with
    | nil => exact absurd h ho
    | cons a l => rfl
  unfold computeWorkspace
  simp only [hf, if_true,
    generateCache_of_no_solver ext self workspace.group_name _ _ _ hc hs]
  cases hsample : sampleUniform workspace with
  | none => rfl
  | some val =>
    obtain ⟨ok, sampled⟩ := val
    cases ok with
    | false =>
      unfold sampleUniform at hsample
      simp only [he, Bool.false_eq_true, if_false] at hsample
      split at hsample <;> simp at hsample
    | true =>
      simp only []
      rw [findIKSolutions_of_absent_cache]
      simp [setToolFrameOffset, hc]

/-- Claim C11, evaluated where the code departs from it.  On a fresh engine, for a
group that has no kinematics solver (`generateCache` returns false without ever
creating a cache object), `computeWorkspace` has no defined result, whether the
solver answers `SUCCESS` (the empty handle is dereferenced in `addToCache`) or
`NO_IK_SOLUTION` (it is dereferenced in `writeToFile` after the loop).  In the
two other failures of `generateCache` a cache object exists and the engine does
proceed without seeding: `use_cache_` stays false, every sampled point is
classified and `computeWorkspace` returns true. -/
theorem computeWorkspace_cache_build_failure :
    computeWorkspace (noSolverExternal 1) freshEngine armWorkspace false = none ∧
    computeWorkspace (noSolverExternal (-31)) freshEngine armWorkspace false = none ∧
    (computeWorkspace (failingBuildExternal 1) freshEngine armWorkspace false).map
        (fun r => (r.1, r.2.1, r.2.2.use_cache_, r.2.2.kinematics_cache_))
      = some (true, solvedArmWorkspace 1 ["j"] [1], false, some ()) ∧
    (computeWorkspace (failingWriteExternal 1) freshEngine armWorkspace false).map
        (fun r => (r.1, r.2.1, r.2.2.use_cache_, r.2.2.kinematics_cache_))
      = some (true, solvedArmWorkspace 1 ["j"] [1], false, some ()) := by
  refine ⟨?_, ?_, by decide!, by decide!⟩
  · exact computeWorkspace_of_absent_cache (noSolverExternal 1) freshEngine armWorkspace false
      rfl rfl rfl (by simp [armWorkspace, scenarioWorkspace])
  · exact computeWorkspace_of_absent_cache (noSolverExternal (-31)) freshEngine armWorkspace
      false rfl rfl rfl (by simp [armWorkspace, scenarioWorkspace])

/-! ## Cache lifecycle and population -/

/-- Claim C12, evaluated where the code departs from it.  The first call, for `arm`,
builds the cache for `arm` and activates seeding.  The second call, for `leg`,
finds `first_time_` false and skips `generateCache`: it makes no cache build or
load call, the cache object is still the one of `arm`, seeding is active, and the
request for `leg` is seeded from the cache of `arm`.  Called directly in that
state, `generateCache` for `leg` does create a new cache for `leg`. -/
theorem computeWorkspace_latch_ignores_group :
    (computeWorkspace twoGroupExternal freshGroupEngine (pointWorkspace "arm") false).map
        (fun r => (r.1, r.2.2.first_time_, r.2.2.use_cache_,
          r.2.2.kinematics_cache_.map twoGroupExternal.getGroupName, r.2.2.calls))
      = some (true, false, true, some "arm",
          [Call.newKinematicsCache "arm", Call.readFromFile "cache.bin",
           Call.getMinMaxSquaredDistance,
           Call.getSolution { orientation := { w := 1 } } 0,
           Call.getIK (seededGroupRequest "arm"),
           Call.addToCache { orientation := { w := 1 } } [1] true,
           Call.writeToFile "cache.bin"]) ∧
    armThenLeg.map
        (fun r => (r.1, r.2.2.use_cache_,
          r.2.2.kinematics_cache_.map twoGroupExternal.getGroupName, r.2.2.calls.drop 7))
      = some (true, true, some "arm",
          [Call.getMinMaxSquaredDistance,
           Call.getSolution { orientation := { w := 1 } } 0,
           Call.getIK (seededGroupRequest "leg"),
           Call.addToCache { orientation := { w := 1 } } [1] true,
           Call.writeToFile "cache.bin"]) ∧
    ((computeWorkspace twoGroupExternal freshGroupEngine (pointWorkspace "arm") false).bind
        fun first => generateCache twoGroupExternal first.2.2 "leg" 60 {} "cache.bin").map
        (fun r => (r.1, r.2.kinematics_cache_.map twoGroupExternal.getGroupName,
          r.2.calls.drop 7))
      = some (true, some "leg",
          [Call.newKinematicsCache "leg", Call.readFromFile "cache.bin"]) := by
  refine ⟨by decide!, by decide!, by decide!⟩

/-- The calls of one returning iteration of the solve loop: those of `findIK`, then
one `addToCache` with the pose stored in the point when the classification is
`SUCCESS`, and nothing more otherwise. -/
theorem findIKSolutionsBody_calls {W K : Type} (ext : External W K)
    (visualize_workspace : Bool) (i : Nat) (workspace result : WorkspacePoints)
    (self engine : KinematicsReachability W K)
    (h : findIKSolutionsBody ext visualize_workspace i workspace self = some (result, engine)) :
    ∃ (point : WorkspacePoint) (code : MoveItErrorCodes) (solution : RobotState)
        (solved : KinematicsReachability W K),
      workspace.points[i]? = some point ∧
      findIK ext self workspace.group_name { pose := point.pose, header := workspace.header }
        {} {} = some (code, solution, solved) ∧
      engine.calls = solved.calls ++
        (if code.val = MoveItErrorCodes.SUCCESS then
          [Call.addToCache point.pose solution.joint_state.position true]
        else []) := by
  unfold findIKSolutionsBody at h
  cases hp : workspace.points[i]? with
  | none => simp [hp] at h
  | some point =>
    simp only [hp] at h
    cases hf : findIK ext self workspace.group_name
        { pose := point.pose, header := workspace.header } {} {} with
    | none => simp [hf] at h
    | some val =>
      obtain ⟨code, solution, solved⟩ := val
      simp only [hf] at h
      refine ⟨point, code, solution, solved, rfl, hf, ?_⟩
      by_cases hs : code.val = MoveItErrorCodes.SUCCESS
      · simp only [hs, if_true] at h
        cases hc : solved.kinematics_cache_ with
        | none => simp [hc] at h
        | some cache =>
          simp only [hc, Option.some.injEq, Prod.mk.injEq] at h
          rw [← h.2, if_pos hs]
      · simp only [hs, if_false, Option.some.injEq, Prod.mk.injEq] at h
        rw [← h.2, if_neg hs]
        simp

/-- Claim C18, evaluated where the code departs from it.  With a tool offset of
`(1, 0, 0)` the point sampled at the origin is looked up in the cache and sent
to the solver at the tool-corrected pose `(-1, 0, 0)`, but after the `SUCCESS`
the solution is added to the cache at the point's own, uncorrected pose
`(0, 0, 0)`.  The rest of the claim holds there: one `addToCache` call with the
solution's joint positions for the `SUCCESS`, none when the solver answers
`NO_IK_SOLUTION`. -/
theorem findIKSolutions_caches_uncorrected_pose :
    (computeWorkspace (scenarioExternal 1) freshEngine offsetToolWorkspace false).map
        (fun r => (r.1, r.2.1.points.map (fun point => point.solution_code.val), r.2.2.calls))
      = some (true, [MoveItErrorCodes.SUCCESS],
          [Call.newKinematicsCache "arm", Call.readFromFile "cache.bin",
           Call.getMinMaxSquaredDistance,
           Call.getSolution { position := { x := -1 }, orientation := { w := 1 } } 0,
           Call.getIK offsetToolRequest,
           Call.addToCache { position := { x := 0 }, orientation := { w := 1 } } [1] true,
           Call.writeToFile "cache.bin"]) ∧
    (computeWorkspace (scenarioExternal (-31)) freshEngine offsetToolWorkspace false).map
        (fun r => (r.1, r.2.1.points.map (fun point => point.solution_code.val), r.2.2.calls))
      = some (true, [MoveItErrorCodes.NO_IK_SOLUTION],
          [Call.newKinematicsCache "arm", Call.readFromFile "cache.bin",
           Call.getMinMaxSquaredDistance,
           Call.getSolution { position := { x := -1 }, orientation := { w := 1 } } 0,
           Call.getIK offsetToolRequest,
           Call.writeToFile "cache.bin"]) ∧
    poseTFToMsg (scenarioExternal 1).rotationToMsg
        (toolCorrectedPose (setToolFrameOffset freshEngine offsetToolWorkspace.tool_frame_offset)
          { position := { x := 0 }, orientation := { w := 1 } })
      = { position := { x := -1 }, orientation := { w := 1 } } ∧
    ({ position := { x := -1 }, orientation := { w := 1 } } : Pose)
      ≠ { position := { x := 0 }, orientation := { w := 1 } } := by
  refine ⟨by decide!, by decide!, by decide!, by decide!⟩

end kinematics_reachability
